import Mathlib

/-!
# metaballs.c : circles, metaball outlines and the bounce step

A shallow embedding of `src/metaballs.c`.

* A C `double` is read as an element of a linearly ordered field `α`; the
  definitions are polymorphic in `α`, so they run over `ℚ`, and the theorems
  are stated over `ℝ`.
* The functions of `math.h` that the program calls (`sqrt`, `atan2`, `cos`,
  `sin`, `acos`) and the constant `M_PI` are not part of the program; they are
  passed in as a record `Libm α`.  `realLibm` is their meaning over `ℝ`.
  `fabs` and `fmin` are the absolute value and the minimum of the order.
* `fprintf` to the frame file is modelled by returning the list of records
  written, in the order they are written.
* Each call of `rand()` returns some natural number; the values returned by
  the 30 calls in the initialisers of `main` are a parameter, `RandCalls`.
* Rounding, underflow, overflow and NaN of `double` arithmetic are outside this
  reading: nothing below is about inputs where a product underflows to 0 or
  where a rounded quotient leaves the domain of `acos`.
-/

set_option linter.unusedVariables false

namespace Metaballs

/-! ## Data -/

/-- The C struct `vec3` (used for colours). -/
structure vec3 (α : Type) where
  r : α
  g : α
  b : α

/-- The C struct `vec2` (positions and velocities). -/
@[ext]
structure vec2 (α : Type) where
  x : α
  y : α

/-- The functions and the constant of `math.h` that `metaballs.c` uses. -/
structure Libm (α : Type) where
  sqrt : α → α
  atan2 : α → α → α
  cos : α → α
  sin : α → α
  acos : α → α
  M_PI : α

/-- The meaning of the `math.h` functions over the real numbers.  `atan2 y x`
is the principal argument of `x + y i`, in `(-π, π]`. -/
noncomputable def realLibm : Libm ℝ where
  sqrt := Real.sqrt
  atan2 := fun y x => Complex.arg ⟨x, y⟩
  cos := Real.cos
  sin := Real.sin
  acos := Real.arccos
  M_PI := Real.pi

/-- One record of the jgraph file: the three header lines that `init_graph`
prints, and `newline bezier poly pcfill r g b pts` followed by its points. -/
inductive JCmd (α : Type) where
  | newgraph : JCmd α
  | xaxis (max : α) : JCmd α
  | yaxis (max : α) : JCmd α
  | poly (color : vec3 α) (pts : List (vec2 α)) : JCmd α

section Program

variable {α : Type} [LinearOrderedField α]

/-! ## Constants -/

/-- `const double C`: the constant for drawing circles with bezier curves. -/
def C : α := 0.5519150244935105707435627

/-- `const double MIN_MAX_TABLE[4]`: MIN X, MAX X, MIN Y, MAX Y. -/
def MIN_MAX_TABLE : Fin 4 → α := ![-915, 1912, -1331, 2333]

/-- `const double SCALE`. -/
def SCALE : α := 1000.0

/-- `M_PI_2` of `math.h`. -/
def Libm.M_PI_2 (M : Libm α) : α := M.M_PI / 2

/-- `fabs` of `math.h`. -/
def fabs (a : α) : α := |a|

/-- `fmin` of `math.h`. -/
def fmin (a b : α) : α := min a b

/-! ## Geometry primitives -/

/-- `draw_circle`: the header line with the colour, then the 13 points printed
by the five `fprintf` calls that follow it. -/
def draw_circle (pos : vec2 α) (scale : α) (color : vec3 α) : List (JCmd α) :=
  let x := pos.x
  let y := pos.y
  [JCmd.poly color
    [⟨x, y - scale⟩,
     ⟨x + C * scale, y - scale⟩, ⟨x + scale, y - C * scale⟩, ⟨x + scale, y⟩,
     ⟨x + scale, y + C * scale⟩, ⟨x + C * scale, y + scale⟩, ⟨x, y + scale⟩,
     ⟨x - C * scale, y + scale⟩, ⟨x - scale, y + C * scale⟩, ⟨x - scale, y⟩,
     ⟨x - scale, y - C * scale⟩, ⟨x - C * scale, y - scale⟩, ⟨x, y - scale⟩]]

/-- `dist`: euclidian distance for 2d space. -/
def dist (M : Libm α) (p0 p1 : vec2 α) : α :=
  M.sqrt (((p0.x - p1.x) * (p0.x - p1.x)) + ((p0.y - p1.y) * (p0.y - p1.y)))

/-- `angle`: angle between two points in 2d space. -/
def angle (M : Libm α) (p0 p1 : vec2 α) : α :=
  M.atan2 (p0.y - p1.y) (p0.x - p1.x)

/-- `get_vector`: the vector for a bezier handle, given a circle position,
radius and handle angle. -/
def get_vector (M : Libm α) (p : vec2 α) (a r : α) : vec2 α :=
  { x := p.x + r * M.cos a, y := p.y + r * M.sin a }

/-! ## draw_metaball

Each local variable of `draw_metaball` is a definition of its own, named
`draw_metaball.<local>`, taking the arguments of `draw_metaball`. -/

/-- `double d = dist(point0, point1)`. -/
def draw_metaball.d (M : Libm α) (point0 : vec2 α) (radius0 : α) (point1 : vec2 α)
    (radius1 : α) : α :=
  dist M point0 point1

/-- `double max_dist = radius0 + radius1 * 2.5`. -/
def draw_metaball.max_dist (M : Libm α) (point0 : vec2 α) (radius0 : α) (point1 : vec2 α)
    (radius1 : α) : α :=
  radius0 + radius1 * 2.5

/-- `double v = 0.5`. -/
def draw_metaball.v : α := 0.5

/-- `double handle_size = 2.4`. -/
def draw_metaball.handle_size : α := 2.4

/-- `u0`: 0, overwritten when the circles are overlapping. -/
def draw_metaball.u0 (M : Libm α) (point0 : vec2 α) (radius0 : α) (point1 : vec2 α)
    (radius1 : α) : α :=
  let d := draw_metaball.d M point0 radius0 point1 radius1
  if d < radius0 + radius1 then
    M.acos ((radius0 * radius0 + d * d - radius1 * radius1) / (2 * radius0 * d))
  else 0

/-- `u1`: 0, overwritten when the circles are overlapping. -/
def draw_metaball.u1 (M : Libm α) (point0 : vec2 α) (radius0 : α) (point1 : vec2 α)
    (radius1 : α) : α :=
  let d := draw_metaball.d M point0 radius0 point1 radius1
  if d < radius0 + radius1 then
    M.acos ((radius1 * radius1 + d * d - radius0 * radius0) / (2 * radius1 * d))
  else 0

/-- `double angle_between_points = angle(point1, point0)`. -/
def draw_metaball.angle_between_points (M : Libm α) (point0 : vec2 α) (radius0 : α)
    (point1 : vec2 α) (radius1 : α) : α :=
  angle M point1 point0

/-- `double max_spread = acos((radius0-radius1)/d)`. -/
def draw_metaball.max_spread (M : Libm α) (point0 : vec2 α) (radius0 : α) (point1 : vec2 α)
    (radius1 : α) : α :=
  M.acos ((radius0 - radius1) / draw_metaball.d M point0 radius0 point1 radius1)

/-- `angle0 = angle_between_points + u0 + (max_spread-u0) * v`. -/
def draw_metaball.angle0 (M : Libm α) (point0 : vec2 α) (radius0 : α) (point1 : vec2 α)
    (radius1 : α) : α :=
  draw_metaball.angle_between_points M point0 radius0 point1 radius1
    + draw_metaball.u0 M point0 radius0 point1 radius1
    + (draw_metaball.max_spread M point0 radius0 point1 radius1
        - draw_metaball.u0 M point0 radius0 point1 radius1) * draw_metaball.v

/-- `angle1 = angle_between_points - u0 - (max_spread-u0) * v`. -/
def draw_metaball.angle1 (M : Libm α) (point0 : vec2 α) (radius0 : α) (point1 : vec2 α)
    (radius1 : α) : α :=
  draw_metaball.angle_between_points M point0 radius0 point1 radius1
    - draw_metaball.u0 M point0 radius0 point1 radius1
    - (draw_metaball.max_spread M point0 radius0 point1 radius1
        - draw_metaball.u0 M point0 radius0 point1 radius1) * draw_metaball.v

/-- `angle2 = angle_between_points + M_PI - u1 - (M_PI-u1-max_spread) * v`. -/
def draw_metaball.angle2 (M : Libm α) (point0 : vec2 α) (radius0 : α) (point1 : vec2 α)
    (radius1 : α) : α :=
  draw_metaball.angle_between_points M point0 radius0 point1 radius1 + M.M_PI
    - draw_metaball.u1 M point0 radius0 point1 radius1
    - (M.M_PI - draw_metaball.u1 M point0 radius0 point1 radius1
        - draw_metaball.max_spread M point0 radius0 point1 radius1) * draw_metaball.v

/-- `angle3 = angle_between_points - M_PI + u1 + (M_PI-u1-max_spread) * v`. -/
def draw_metaball.angle3 (M : Libm α) (point0 : vec2 α) (radius0 : α) (point1 : vec2 α)
    (radius1 : α) : α :=
  draw_metaball.angle_between_points M point0 radius0 point1 radius1 - M.M_PI
    + draw_metaball.u1 M point0 radius0 point1 radius1
    + (M.M_PI - draw_metaball.u1 M point0 radius0 point1 radius1
        - draw_metaball.max_spread M point0 radius0 point1 radius1) * draw_metaball.v

/-- `p0 = get_vector(point0, angle0, radius0)`. -/
def draw_metaball.p0 (M : Libm α) (point0 : vec2 α) (radius0 : α) (point1 : vec2 α)
    (radius1 : α) : vec2 α :=
  get_vector M point0 (draw_metaball.angle0 M point0 radius0 point1 radius1) radius0

/-- `p1 = get_vector(point0, angle1, radius0)`. -/
def draw_metaball.p1 (M : Libm α) (point0 : vec2 α) (radius0 : α) (point1 : vec2 α)
    (radius1 : α) : vec2 α :=
  get_vector M point0 (draw_metaball.angle1 M point0 radius0 point1 radius1) radius0

/-- `p2 = get_vector(point1, angle2, radius1)`. -/
def draw_metaball.p2 (M : Libm α) (point0 : vec2 α) (radius0 : α) (point1 : vec2 α)
    (radius1 : α) : vec2 α :=
  get_vector M point1 (draw_metaball.angle2 M point0 radius0 point1 radius1) radius1

/-- `p3 = get_vector(point1, angle3, radius1)`. -/
def draw_metaball.p3 (M : Libm α) (point0 : vec2 α) (radius0 : α) (point1 : vec2 α)
    (radius1 : α) : vec2 α :=
  get_vector M point1 (draw_metaball.angle3 M point0 radius0 point1 radius1) radius1

/-- `d2 = fmin(v*handle_size, dist(p0,p2)/(radius0+radius1))`, then
`d2 *= fmin(1, (d*2)/(radius0+radius1))`. -/
def draw_metaball.d2 (M : Libm α) (point0 : vec2 α) (radius0 : α) (point1 : vec2 α)
    (radius1 : α) : α :=
  let d2 := fmin (draw_metaball.v * draw_metaball.handle_size)
    (dist M (draw_metaball.p0 M point0 radius0 point1 radius1)
        (draw_metaball.p2 M point0 radius0 point1 radius1) / (radius0 + radius1))
  d2 * fmin 1 ((draw_metaball.d M point0 radius0 point1 radius1 * 2) / (radius0 + radius1))

/-- `double r0 = radius0 * d2`. -/
def draw_metaball.r0 (M : Libm α) (point0 : vec2 α) (radius0 : α) (point1 : vec2 α)
    (radius1 : α) : α :=
  radius0 * draw_metaball.d2 M point0 radius0 point1 radius1

/-- `double r1 = radius1 * d2`. -/
def draw_metaball.r1 (M : Libm α) (point0 : vec2 α) (radius0 : α) (point1 : vec2 α)
    (radius1 : α) : α :=
  radius1 * draw_metaball.d2 M point0 radius0 point1 radius1

/-- `h0 = get_vector(p0, angle0 - M_PI_2, r0)`. -/
def draw_metaball.h0 (M : Libm α) (point0 : vec2 α) (radius0 : α) (point1 : vec2 α)
    (radius1 : α) : vec2 α :=
  get_vector M (draw_metaball.p0 M point0 radius0 point1 radius1)
    (draw_metaball.angle0 M point0 radius0 point1 radius1 - M.M_PI_2)
    (draw_metaball.r0 M point0 radius0 point1 radius1)

/-- `h1 = get_vector(p1, angle1 + M_PI_2, r0)`. -/
def draw_metaball.h1 (M : Libm α) (point0 : vec2 α) (radius0 : α) (point1 : vec2 α)
    (radius1 : α) : vec2 α :=
  get_vector M (draw_metaball.p1 M point0 radius0 point1 radius1)
    (draw_metaball.angle1 M point0 radius0 point1 radius1 + M.M_PI_2)
    (draw_metaball.r0 M point0 radius0 point1 radius1)

/-- `h2 = get_vector(p2, angle2 + M_PI_2, r1)`. -/
def draw_metaball.h2 (M : Libm α) (point0 : vec2 α) (radius0 : α) (point1 : vec2 α)
    (radius1 : α) : vec2 α :=
  get_vector M (draw_metaball.p2 M point0 radius0 point1 radius1)
    (draw_metaball.angle2 M point0 radius0 point1 radius1 + M.M_PI_2)
    (draw_metaball.r1 M point0 radius0 point1 radius1)

/-- `h3 = get_vector(p3, angle3 - M_PI_2, r1)`. -/
def draw_metaball.h3 (M : Libm α) (point0 : vec2 α) (radius0 : α) (point1 : vec2 α)
    (radius1 : α) : vec2 α :=
  get_vector M (draw_metaball.p3 M point0 radius0 point1 radius1)
    (draw_metaball.angle3 M point0 radius0 point1 radius1 - M.M_PI_2)
    (draw_metaball.r1 M point0 radius0 point1 radius1)

/-- `edge = get_vector(point1, angle(point1, point0), radius1)`. -/
def draw_metaball.edge (M : Libm α) (point0 : vec2 α) (radius0 : α) (point1 : vec2 α)
    (radius1 : α) : vec2 α :=
  get_vector M point1 (angle M point1 point0) radius1

/-- `struct vec2 curve[10] = {p0, h0, h2, p2, edge, edge, p3, h3, h1, p1}`. -/
def draw_metaball.curve (M : Libm α) (point0 : vec2 α) (radius0 : α) (point1 : vec2 α)
    (radius1 : α) : List (vec2 α) :=
  [draw_metaball.p0 M point0 radius0 point1 radius1,
   draw_metaball.h0 M point0 radius0 point1 radius1,
   draw_metaball.h2 M point0 radius0 point1 radius1,
   draw_metaball.p2 M point0 radius0 point1 radius1,
   draw_metaball.edge M point0 radius0 point1 radius1,
   draw_metaball.edge M point0 radius0 point1 radius1,
   draw_metaball.p3 M point0 radius0 point1 radius1,
   draw_metaball.h3 M point0 radius0 point1 radius1,
   draw_metaball.h1 M point0 radius0 point1 radius1,
   draw_metaball.p1 M point0 radius0 point1 radius1]

/-- `draw_metaball`: nothing is printed when the early `return` is taken;
otherwise the header line with the colour and the 10 points of `curve`. -/
def draw_metaball (M : Libm α) (point0 : vec2 α) (radius0 : α) (point1 : vec2 α)
    (radius1 : α) (color : vec3 α) : List (JCmd α) :=
  if radius0 = 0 ∨ radius1 = 0
      ∨ draw_metaball.d M point0 radius0 point1 radius1
          > draw_metaball.max_dist M point0 radius0 point1 radius1
      ∨ draw_metaball.d M point0 radius0 point1 radius1 ≤ fabs (radius0 - radius1) then
    []
  else
    [JCmd.poly color (draw_metaball.curve M point0 radius0 point1 radius1)]

/-! ## init_graph and update_pos -/

/-- `init_graph`: the three header lines of a frame file. -/
def init_graph (scale : α) : List (JCmd α) :=
  [JCmd.newgraph, JCmd.xaxis scale, JCmd.yaxis scale]

/-- `update_pos`: the four boundary checks in the order of the source, each
acting on the velocity left by the one before, then the two position updates.
Returns the new `*p` and the new `*v`. -/
def update_pos (p : vec2 α) (r : α) (v : vec2 α) : vec2 α × vec2 α :=
  let v := if p.x + r > MIN_MAX_TABLE 1 then { v with x := v.x * -1 } else v
  let v := if p.x - r < MIN_MAX_TABLE 0 then { v with x := v.x * -1 } else v
  let v := if p.y + r > MIN_MAX_TABLE 3 then { v with y := v.y * -1 } else v
  let v := if p.y - r < MIN_MAX_TABLE 2 then { v with y := v.y * -1 } else v
  let p := { p with x := p.x + v.x }
  let p := { p with y := p.y + v.y }
  (p, v)

/-! ## The frame loop of main -/

/-- The arrays `poses[6]`, `vels[6]` and `rads[6]` of `main`. -/
structure Bodies (α : Type) where
  poses : Fin 6 → vec2 α
  vels : Fin 6 → vec2 α
  rads : Fin 6 → α

/-- `struct vec3 color = {.r=0, .g=0, .b=0}`. -/
def main.color : vec3 α := { r := 0, g := 0, b := 0 }

/-- The body of the first inner loop of `main`, at index `i`:
`update_pos(&poses[i], rads[i], &vels[i]); draw_circle(f, poses[i], rads[i], color)`.
The state is the arrays and what has been written to `f` so far. -/
def main.circle_step (st : Bodies α × List (JCmd α)) (i : Fin 6) :
    Bodies α × List (JCmd α) :=
  let pv := update_pos (st.1.poses i) (st.1.rads i) (st.1.vels i)
  let b : Bodies α :=
    { poses := Function.update st.1.poses i pv.1
      vels := Function.update st.1.vels i pv.2
      rads := st.1.rads }
  (b, st.2 ++ draw_circle (b.poses i) (b.rads i) main.color)

/-- The body of the second outer loop of `main`, at index `i`: the loop
`for (int j=i+1; j<6; ++j) draw_metaball(f, poses[i], rads[i], poses[j], rads[j], color)`. -/
def main.metaball_step (M : Libm α) (b : Bodies α) (f : List (JCmd α)) (i : Fin 6) :
    List (JCmd α) :=
  ((List.finRange 6).drop (i.val + 1)).foldl
    (fun f j => f ++ draw_metaball M (b.poses i) (b.rads i) (b.poses j) (b.rads j) main.color) f

/-- One iteration of the frame loop of `main`: the arrays after it and the
content of the frame file it writes. -/
def main.frame (M : Libm α) (b : Bodies α) : Bodies α × List (JCmd α) :=
  let f := init_graph SCALE
  let st := (List.finRange 6).foldl main.circle_step (b, f)
  let f := (List.finRange 6).foldl (main.metaball_step M st.1) st.2
  (st.1, f)

/-- The frame loop of `main` run `num_frames` times: the frame files written,
in order. -/
def main.frames (M : Libm α) : (num_frames : ℕ) → Bodies α → List (List (JCmd α))
  | 0, _ => []
  | n + 1, b => (main.frame M b).2 :: main.frames M n (main.frame M b).1

/-! ## The initialisation of main -/

/-- Conversion of a `double` to `int` (as in `int x_range = ...`): truncation
toward zero. -/
def double_to_int [FloorRing α] (a : α) : ℤ :=
  if 0 ≤ a then ⌊a⌋ else ⌈a⌉

/-- `random_pos_init`; `rand_x` and `rand_y` are the values returned by its two
calls of `rand()`, which are between 0 and `RAND_MAX`.  The products are `int`
arithmetic (at most 79 * 3664), then divided by the double `100.0`. -/
def random_pos_init [FloorRing α] (rand_x rand_y : ℕ) : vec2 α :=
  let x_range : ℤ := double_to_int (MIN_MAX_TABLE 1 - MIN_MAX_TABLE 0 : α)
  let y_range : ℤ := double_to_int (MIN_MAX_TABLE 3 - MIN_MAX_TABLE 2 : α)
  { x := ((((rand_x : ℤ) % 60 + 20) * x_range : ℤ) : α) / 100.0 + MIN_MAX_TABLE 0
    y := ((((rand_y : ℤ) % 60 + 20) * y_range : ℤ) : α) / 100.0 + MIN_MAX_TABLE 2 }

/-- `random_vel_init`; `rand_x` and `rand_y` are the values returned by its two
calls of `rand()`. -/
def random_vel_init (rand_x rand_y : ℕ) : vec2 α :=
  { x := (((rand_x : ℤ) % 100 - 50 : ℤ) : α)
    y := (((rand_y : ℤ) % 120 - 60 : ℤ) : α) }

/-- The values returned by the 30 calls of `rand()` in the initialisers of
`poses`, `vels` and `rads`, named by the array entry they are used for. -/
structure RandCalls where
  pos_x : Fin 6 → ℕ
  pos_y : Fin 6 → ℕ
  vel_x : Fin 6 → ℕ
  vel_y : Fin 6 → ℕ
  rad : Fin 6 → ℕ

/-- The arrays `poses`, `vels` and `rads` as the initialisers of `main` build
them. -/
def main.init [FloorRing α] (R : RandCalls) : Bodies α :=
  { poses := ![random_pos_init (R.pos_x 0) (R.pos_y 0), random_pos_init (R.pos_x 1) (R.pos_y 1),
               random_pos_init (R.pos_x 2) (R.pos_y 2), random_pos_init (R.pos_x 3) (R.pos_y 3),
               random_pos_init (R.pos_x 4) (R.pos_y 4), random_pos_init (R.pos_x 5) (R.pos_y 5)]
    vels := ![random_vel_init (R.vel_x 0) (R.vel_y 0), random_vel_init (R.vel_x 1) (R.vel_y 1),
              random_vel_init (R.vel_x 2) (R.vel_y 2), random_vel_init (R.vel_x 3) (R.vel_y 3),
              random_vel_init (R.vel_x 4) (R.vel_y 4), random_vel_init (R.vel_x 5) (R.vel_y 5)]
    rads := ![(((R.rad 0 : ℤ) % 400 + 50 : ℤ) : α), (((R.rad 1 : ℤ) % 50 + 150 : ℤ) : α),
              (((R.rad 2 : ℤ) % 400 + 50 : ℤ) : α), (((R.rad 3 : ℤ) % 50 + 150 : ℤ) : α),
              (((R.rad 4 : ℤ) % 400 + 50 : ℤ) : α), (((R.rad 5 : ℤ) % 50 + 150 : ℤ) : α)] }

/-- The frame files written by a run of `main` with `num_frames` frames. -/
def main.run [FloorRing α] (M : Libm α) (num_frames : ℕ) (R : RandCalls) :
    List (List (JCmd α)) :=
  main.frames M num_frames (main.init R)

end Program

/-! ## Definitions that follow the specification -/

section Specification

variable {α : Type} [LinearOrderedField α]

/-- The eligibility test as the specification words it (section 4.3): a pair
is eligible when neither radius is 0, the centers are not further apart than
`radius0 + 2.5 * radius1`, and neither circle contains the other. -/
def eligible (M : Libm α) (point0 : vec2 α) (radius0 : α) (point1 : vec2 α)
    (radius1 : α) : Prop :=
  ¬ (radius0 = 0 ∨ radius1 = 0 ∨ dist M point0 point1 > radius0 + 2.5 * radius1
      ∨ dist M point0 point1 ≤ |radius0 - radius1|)

instance eligible.decidable (M : Libm α) (point0 : vec2 α) (radius0 : α) (point1 : vec2 α)
    (radius1 : α) : Decidable (eligible M point0 radius0 point1 radius1) := by
  unfold eligible
  infer_instance

/-- All 6 bodies advanced by one `update_pos` step. -/
def advance_all (b : Bodies α) : Bodies α :=
  { poses := fun k => (update_pos (b.poses k) (b.rads k) (b.vels k)).1
    vels := fun k => (update_pos (b.poses k) (b.rads k) (b.vels k)).2
    rads := b.rads }

/-- The pairs `(i, j)` with `0 ≤ i < j < 6`, in lexicographic order. -/
def pairs : List (Fin 6 × Fin 6) :=
  [(0, 1), (0, 2), (0, 3), (0, 4), (0, 5),
   (1, 2), (1, 3), (1, 4), (1, 5),
   (2, 3), (2, 4), (2, 5),
   (3, 4), (3, 5),
   (4, 5)]

/-- One circle command for each body `k = 0..5`, in index order. -/
def reference_circles (b : Bodies α) : List (JCmd α) :=
  [0, 1, 2, 3, 4, 5].flatMap fun k : Fin 6 => draw_circle (b.poses k) (b.rads k) main.color

/-- The results of `draw_metaball(i, j)` for the pairs of `pairs`, in order. -/
def reference_blends (M : Libm α) (b : Bodies α) : List (JCmd α) :=
  pairs.flatMap fun ij =>
    draw_metaball M (b.poses ij.1) (b.rads ij.1) (b.poses ij.2) (b.rads ij.2) main.color

/-- The reference stream of one frame (section 4.5): advance every body one
step, then the circle commands, then the blend commands, all of them on the
advanced bodies. -/
def reference_frame (M : Libm α) (b : Bodies α) : Bodies α × List (JCmd α) :=
  (advance_all b, reference_circles (advance_all b) ++ reference_blends M (advance_all b))

/-- The position and velocity of one body of radius `r` after `n` steps of
`update_pos`, starting from `s`. -/
def update_pos_steps (r : α) : ℕ → vec2 α × vec2 α → vec2 α × vec2 α
  | 0, s => s
  | n + 1, s => update_pos (update_pos_steps r n s).1 r (update_pos_steps r n s).2

/-- What holds on one axis (bounds `lo`, `hi`) of a body of radius `r` and
speed `V` that started inside the boundary: the speed is kept, the two checks
of the axis are not both true, the body is at most `V` beyond a bound, and
when it is beyond a bound its velocity points outward. -/
def axis_inv (lo hi r V p v : α) : Prop :=
  |v| = V ∧ ¬ (p + r > hi ∧ p - r < lo) ∧ p + r ≤ hi + V ∧ lo - V ≤ p - r
    ∧ (p + r > hi → v = V) ∧ (p - r < lo → v = -V)

end Specification

/-! ## Facts about the real `math.h` -/

theorem realLibm_sqrt_sq (a : ℝ) (h : 0 ≤ a) : realLibm.sqrt (a * a) = a :=
  Real.sqrt_mul_self h

theorem dist_real_horizontal (a b : ℝ) (h : a ≤ b) :
    dist realLibm ⟨a, 0⟩ ⟨b, 0⟩ = b - a := by
  have e : (a - b) * (a - b) + (0 - 0) * (0 - 0) = (b - a) * (b - a) := by ring
  simp only [dist]
  rw [e]
  exact realLibm_sqrt_sq (b - a) (by linarith)

theorem dist_real_of_sq (a b : vec2 ℝ) (r : ℝ) (hr : 0 ≤ r)
    (h : (a.x - b.x) * (a.x - b.x) + (a.y - b.y) * (a.y - b.y) = r * r) :
    dist realLibm a b = r := by
  simp only [dist]
  rw [h]
  exact realLibm_sqrt_sq r hr

theorem dist_real_nonneg (a b : vec2 ℝ) : 0 ≤ dist realLibm a b :=
  Real.sqrt_nonneg _

theorem dist_real_comm (a b : vec2 ℝ) : dist realLibm a b = dist realLibm b a := by
  simp only [dist]
  congr 1
  ring

/-- The cosine of `angle(p0, p1)` is the x-component of the unit vector from
`p1` to `p0`. -/
theorem cos_angle_real (p0 p1 : vec2 ℝ) (h : dist realLibm p0 p1 ≠ 0) :
    realLibm.cos (angle realLibm p0 p1) = (p0.x - p1.x) / dist realLibm p0 p1 := by
  have hz : (⟨p0.x - p1.x, p0.y - p1.y⟩ : ℂ) ≠ 0 := by
    intro e
    apply h
    have e1 : p0.x - p1.x = 0 := congrArg Complex.re e
    have e2 : p0.y - p1.y = 0 := congrArg Complex.im e
    simp [dist, realLibm, e1, e2]
  simp only [angle, realLibm, dist]
  rw [Complex.cos_arg hz, Complex.abs_apply, Complex.normSq_mk]

/-- The sine of `angle(p0, p1)` is the y-component of the unit vector from
`p1` to `p0`. -/
theorem sin_angle_real (p0 p1 : vec2 ℝ) :
    realLibm.sin (angle realLibm p0 p1) = (p0.y - p1.y) / dist realLibm p0 p1 := by
  simp only [angle, realLibm, dist]
  rw [Complex.sin_arg, Complex.abs_apply, Complex.normSq_mk]

theorem get_vector_real_dist (p : vec2 ℝ) (a r : ℝ) (hr : 0 ≤ r) :
    dist realLibm (get_vector realLibm p a r) p = r := by
  apply dist_real_of_sq _ _ _ hr
  simp only [get_vector, realLibm]
  have := Real.sin_sq_add_cos_sq a
  nlinarith [this]

/-- An eligible pair has its centers apart and a positive second radius. -/
theorem eligible_real_pos (M : Libm ℝ) (point0 point1 : vec2 ℝ) (radius0 radius1 : ℝ)
    (h : eligible M point0 radius0 point1 radius1) :
    0 < dist M point0 point1 ∧ 0 < radius1 := by
  simp only [eligible, not_or, not_lt, not_le] at h
  obtain ⟨-, -, h1, h2⟩ := h
  have h3 := abs_nonneg (radius0 - radius1)
  have h4 := le_abs_self (radius0 - radius1)
  constructor
  · linarith
  · norm_num at h1
    linarith

/-! ## Eligibility (draw_metaball) -/

section Eligibility

variable {α : Type} [LinearOrderedField α]

theorem draw_metaball_eq_nil_iff (M : Libm α) (point0 : vec2 α) (radius0 : α)
    (point1 : vec2 α) (radius1 : α) (color : vec3 α) :
    draw_metaball M point0 radius0 point1 radius1 color = []
      ↔ ¬ eligible M point0 radius0 point1 radius1 := by
  unfold draw_metaball eligible draw_metaball.d draw_metaball.max_dist fabs
  rw [mul_comm radius1 2.5]
  split_ifs with h
  · simp [h]
  · simp [h]

theorem draw_metaball_of_eligible (M : Libm α) (point0 : vec2 α) (radius0 : α)
    (point1 : vec2 α) (radius1 : α) (color : vec3 α)
    (h : eligible M point0 radius0 point1 radius1) :
    draw_metaball M point0 radius0 point1 radius1 color
      = [JCmd.poly color (draw_metaball.curve M point0 radius0 point1 radius1)] := by
  unfold eligible at h
  unfold draw_metaball draw_metaball.d draw_metaball.max_dist fabs
  rw [mul_comm radius1 2.5, if_neg h]

end Eligibility

/-- C1: draw_metaball prints nothing exactly when radius0 = 0 or radius1 = 0 or
d > radius0 + 2.5*radius1 or d <= |radius0 - radius1|, with
d = dist(point0, point1); otherwise it prints exactly one outline.  Two calls
with the same radii and the same d take the same decision, whatever the centers
are.  (100, 100, d=150) is eligible; (100, 0), (100, 50, d=260) and
(200, 50, d=100) are not. -/
theorem draw_metaball_eligibility (M : Libm ℝ) (point0 point1 : vec2 ℝ)
    (radius0 radius1 : ℝ) (color : vec3 ℝ) :
    (draw_metaball M point0 radius0 point1 radius1 color = []
      ↔ (radius0 = 0 ∨ radius1 = 0 ∨ dist M point0 point1 > radius0 + 2.5 * radius1
          ∨ dist M point0 point1 ≤ |radius0 - radius1|))
    ∧ (¬ (radius0 = 0 ∨ radius1 = 0 ∨ dist M point0 point1 > radius0 + 2.5 * radius1
          ∨ dist M point0 point1 ≤ |radius0 - radius1|)
        → ∃ pts, draw_metaball M point0 radius0 point1 radius1 color = [JCmd.poly color pts])
    ∧ (∀ (q0 q1 : vec2 ℝ) (color1 : vec3 ℝ), dist M q0 q1 = dist M point0 point1 →
        (draw_metaball M q0 radius0 q1 radius1 color1 = []
          ↔ draw_metaball M point0 radius0 point1 radius1 color = []))
    ∧ (dist M point0 point1 = 150 → draw_metaball M point0 100 point1 100 color ≠ [])
    ∧ draw_metaball M point0 100 point1 0 color = []
    ∧ (dist M point0 point1 = 260 → draw_metaball M point0 100 point1 50 color = [])
    ∧ (dist M point0 point1 = 100 → draw_metaball M point0 200 point1 50 color = []) := by
  refine ⟨?_, ?_, ?_, ?_, ?_, ?_, ?_⟩
  · rw [draw_metaball_eq_nil_iff]
    simp only [eligible, not_not]
  · intro h
    exact ⟨_, draw_metaball_of_eligible M point0 radius0 point1 radius1 color h⟩
  · intro q0 q1 color1 hd
    rw [draw_metaball_eq_nil_iff, draw_metaball_eq_nil_iff]
    simp only [eligible, hd]
  · intro hd
    rw [Ne, draw_metaball_eq_nil_iff, not_not]
    simp only [eligible, hd]
    norm_num
  · rw [draw_metaball_eq_nil_iff]
    simp [eligible]
  · intro hd
    rw [draw_metaball_eq_nil_iff]
    simp only [eligible, hd]
    norm_num
  · intro hd
    rw [draw_metaball_eq_nil_iff]
    simp only [eligible, hd]
    norm_num

/-- Witness for C1 over the real `math.h`: centers 150 apart with radii 100
and 100 give an outline; centers 260 apart with radii 100 and 50 give none. -/
theorem draw_metaball_eligibility_witness :
    draw_metaball realLibm ⟨0, 0⟩ 100 ⟨150, 0⟩ 100 ⟨0, 0, 0⟩ ≠ []
    ∧ draw_metaball realLibm ⟨0, 0⟩ 100 ⟨260, 0⟩ 50 ⟨0, 0, 0⟩ = [] :=
  ⟨(draw_metaball_eligibility realLibm ⟨0, 0⟩ ⟨150, 0⟩ 100 100 ⟨0, 0, 0⟩).2.2.2.1
      (by rw [dist_real_horizontal 0 150 (by norm_num)]; norm_num),
   (draw_metaball_eligibility realLibm ⟨0, 0⟩ ⟨260, 0⟩ 100 100 ⟨0, 0, 0⟩).2.2.2.2.2.1
      (by rw [dist_real_horizontal 0 260 (by norm_num)]; norm_num)⟩

/-- C2: for an eligible pair draw_metaball prints exactly 10 points, in the
order p0, h0, h2, p2, edge, edge, p3, h3, h1, p1, where p0 and p1 are placed
on circle 0 (center point0, radius radius0), p2 and p3 on circle 1, and each
handle h is placed from its anchor p; the points at index 4 and 5 are the same
point, edge. -/
theorem draw_metaball_ten_points (M : Libm ℝ) (point0 point1 : vec2 ℝ)
    (radius0 radius1 : ℝ) (color : vec3 ℝ)
    (h : ¬ (radius0 = 0 ∨ radius1 = 0 ∨ dist M point0 point1 > radius0 + 2.5 * radius1
          ∨ dist M point0 point1 ≤ |radius0 - radius1|)) :
    ∃ pts : List (vec2 ℝ),
      draw_metaball M point0 radius0 point1 radius1 color = [JCmd.poly color pts]
      ∧ pts.length = 10
      ∧ pts = [draw_metaball.p0 M point0 radius0 point1 radius1,
               draw_metaball.h0 M point0 radius0 point1 radius1,
               draw_metaball.h2 M point0 radius0 point1 radius1,
               draw_metaball.p2 M point0 radius0 point1 radius1,
               draw_metaball.edge M point0 radius0 point1 radius1,
               draw_metaball.edge M point0 radius0 point1 radius1,
               draw_metaball.p3 M point0 radius0 point1 radius1,
               draw_metaball.h3 M point0 radius0 point1 radius1,
               draw_metaball.h1 M point0 radius0 point1 radius1,
               draw_metaball.p1 M point0 radius0 point1 radius1]
      ∧ pts[4]? = pts[5]?
      ∧ pts[4]? = some (draw_metaball.edge M point0 radius0 point1 radius1)
      ∧ draw_metaball.p0 M point0 radius0 point1 radius1
          = get_vector M point0 (draw_metaball.angle0 M point0 radius0 point1 radius1) radius0
      ∧ draw_metaball.p1 M point0 radius0 point1 radius1
          = get_vector M point0 (draw_metaball.angle1 M point0 radius0 point1 radius1) radius0
      ∧ draw_metaball.p2 M point0 radius0 point1 radius1
          = get_vector M point1 (draw_metaball.angle2 M point0 radius0 point1 radius1) radius1
      ∧ draw_metaball.p3 M point0 radius0 point1 radius1
          = get_vector M point1 (draw_metaball.angle3 M point0 radius0 point1 radius1) radius1
      ∧ draw_metaball.h0 M point0 radius0 point1 radius1
          = get_vector M (draw_metaball.p0 M point0 radius0 point1 radius1)
              (draw_metaball.angle0 M point0 radius0 point1 radius1 - M.M_PI_2)
              (radius0 * draw_metaball.d2 M point0 radius0 point1 radius1)
      ∧ draw_metaball.h1 M point0 radius0 point1 radius1
          = get_vector M (draw_metaball.p1 M point0 radius0 point1 radius1)
              (draw_metaball.angle1 M point0 radius0 point1 radius1 + M.M_PI_2)
              (radius0 * draw_metaball.d2 M point0 radius0 point1 radius1)
      ∧ draw_metaball.h2 M point0 radius0 point1 radius1
          = get_vector M (draw_metaball.p2 M point0 radius0 point1 radius1)
              (draw_metaball.angle2 M point0 radius0 point1 radius1 + M.M_PI_2)
              (radius1 * draw_metaball.d2 M point0 radius0 point1 radius1)
      ∧ draw_metaball.h3 M point0 radius0 point1 radius1
          = get_vector M (draw_metaball.p3 M point0 radius0 point1 radius1)
              (draw_metaball.angle3 M point0 radius0 point1 radius1 - M.M_PI_2)
              (radius1 * draw_metaball.d2 M point0 radius0 point1 radius1)
      ∧ draw_metaball.edge M point0 radius0 point1 radius1
          = get_vector M point1 (angle M point1 point0) radius1 :=
  ⟨draw_metaball.curve M point0 radius0 point1 radius1,
   draw_metaball_of_eligible M point0 radius0 point1 radius1 color h,
   rfl, rfl, rfl, rfl, rfl, rfl, rfl, rfl, rfl, rfl, rfl, rfl, rfl⟩

/-- Witness for C2: the hypothesis holds for radii 100 and 100 with the
centers 150 apart. -/
theorem draw_metaball_ten_points_witness :
    (¬ ((100 : ℝ) = 0 ∨ (100 : ℝ) = 0
        ∨ dist realLibm ⟨0, 0⟩ ⟨150, 0⟩ > (100 : ℝ) + 2.5 * 100
        ∨ dist realLibm ⟨0, 0⟩ ⟨150, 0⟩ ≤ |(100 : ℝ) - 100|))
    ∧ ∃ pts : List (vec2 ℝ),
        draw_metaball realLibm ⟨0, 0⟩ 100 ⟨150, 0⟩ 100 ⟨0, 0, 0⟩ = [JCmd.poly ⟨0, 0, 0⟩ pts]
        ∧ pts.length = 10 ∧ pts[4]? = pts[5]? := by
  have hd : ¬ ((100 : ℝ) = 0 ∨ (100 : ℝ) = 0
        ∨ dist realLibm ⟨0, 0⟩ ⟨150, 0⟩ > (100 : ℝ) + 2.5 * 100
        ∨ dist realLibm ⟨0, 0⟩ ⟨150, 0⟩ ≤ |(100 : ℝ) - 100|) := by
    rw [dist_real_horizontal 0 150 (by norm_num)]
    norm_num
  refine ⟨hd, ?_⟩
  obtain ⟨pts, e, hl, -, h45, -⟩ :=
    draw_metaball_ten_points realLibm ⟨0, 0⟩ ⟨150, 0⟩ 100 100 ⟨0, 0, 0⟩ hd
  exact ⟨pts, e, hl, h45⟩

/-! ## update_pos -/

theorem MIN_MAX_TABLE_values :
    (MIN_MAX_TABLE 0 : ℝ) = -915 ∧ (MIN_MAX_TABLE 1 : ℝ) = 1912
    ∧ (MIN_MAX_TABLE 2 : ℝ) = -1331 ∧ (MIN_MAX_TABLE 3 : ℝ) = 2333 := by
  simp [MIN_MAX_TABLE]

theorem update_pos_vel_x (p : vec2 ℝ) (r : ℝ) (v : vec2 ℝ) :
    (update_pos p r v).2.x
      = if p.x - r < MIN_MAX_TABLE 0 then
          (if p.x + r > MIN_MAX_TABLE 1 then v.x * -1 else v.x) * -1
        else (if p.x + r > MIN_MAX_TABLE 1 then v.x * -1 else v.x) := by
  simp only [update_pos]
  split_ifs <;> rfl

theorem update_pos_vel_y (p : vec2 ℝ) (r : ℝ) (v : vec2 ℝ) :
    (update_pos p r v).2.y
      = if p.y - r < MIN_MAX_TABLE 2 then
          (if p.y + r > MIN_MAX_TABLE 3 then v.y * -1 else v.y) * -1
        else (if p.y + r > MIN_MAX_TABLE 3 then v.y * -1 else v.y) := by
  simp only [update_pos]
  split_ifs <;> rfl

theorem update_pos_pos (p : vec2 ℝ) (r : ℝ) (v : vec2 ℝ) :
    (update_pos p r v).1.x = p.x + (update_pos p r v).2.x
    ∧ (update_pos p r v).1.y = p.y + (update_pos p r v).2.y :=
  ⟨rfl, rfl⟩

/-- C3: update_pos treats the two axes independently.  On each axis the
velocity component is negated when exactly one of the checks p + r > max and
p - r < min holds and is unchanged otherwise (for a non-zero component, it is
negated exactly in that case); the new position is the old position plus the
new velocity component.  A body inside the boundary on both axes keeps its
velocity and moves to p + v. -/
theorem update_pos_per_axis (p : vec2 ℝ) (r : ℝ) (v : vec2 ℝ) :
    (Xor' (p.x + r > MIN_MAX_TABLE 1) (p.x - r < MIN_MAX_TABLE 0)
        → (update_pos p r v).2.x = -v.x)
    ∧ (¬ Xor' (p.x + r > MIN_MAX_TABLE 1) (p.x - r < MIN_MAX_TABLE 0)
        → (update_pos p r v).2.x = v.x)
    ∧ (v.x ≠ 0 → ((update_pos p r v).2.x = -v.x
        ↔ Xor' (p.x + r > MIN_MAX_TABLE 1) (p.x - r < MIN_MAX_TABLE 0)))
    ∧ (Xor' (p.y + r > MIN_MAX_TABLE 3) (p.y - r < MIN_MAX_TABLE 2)
        → (update_pos p r v).2.y = -v.y)
    ∧ (¬ Xor' (p.y + r > MIN_MAX_TABLE 3) (p.y - r < MIN_MAX_TABLE 2)
        → (update_pos p r v).2.y = v.y)
    ∧ (v.y ≠ 0 → ((update_pos p r v).2.y = -v.y
        ↔ Xor' (p.y + r > MIN_MAX_TABLE 3) (p.y - r < MIN_MAX_TABLE 2)))
    ∧ (update_pos p r v).1.x = p.x + (update_pos p r v).2.x
    ∧ (update_pos p r v).1.y = p.y + (update_pos p r v).2.y
    ∧ (∀ py vy : ℝ,
        (update_pos ⟨p.x, py⟩ r ⟨v.x, vy⟩).2.x = (update_pos p r v).2.x
        ∧ (update_pos ⟨p.x, py⟩ r ⟨v.x, vy⟩).1.x = (update_pos p r v).1.x)
    ∧ (∀ px vx : ℝ,
        (update_pos ⟨px, p.y⟩ r ⟨vx, v.y⟩).2.y = (update_pos p r v).2.y
        ∧ (update_pos ⟨px, p.y⟩ r ⟨vx, v.y⟩).1.y = (update_pos p r v).1.y)
    ∧ (MIN_MAX_TABLE 0 ≤ p.x - r → p.x + r ≤ MIN_MAX_TABLE 1
        → MIN_MAX_TABLE 2 ≤ p.y - r → p.y + r ≤ MIN_MAX_TABLE 3
        → update_pos p r v = (⟨p.x + v.x, p.y + v.y⟩, v)) := by
  refine ⟨?_, ?_, ?_, ?_, ?_, ?_, (update_pos_pos p r v).1, (update_pos_pos p r v).2,
    ?_, ?_, ?_⟩
  · intro h
    rw [update_pos_vel_x]
    rcases h with ⟨h1, h2⟩ | ⟨h1, h2⟩
    · rw [if_neg h2, if_pos h1]; ring
    · rw [if_pos h1, if_neg h2]; ring
  · intro h
    rw [update_pos_vel_x]
    by_cases h1 : p.x + r > MIN_MAX_TABLE 1 <;> by_cases h2 : p.x - r < MIN_MAX_TABLE 0
    · rw [if_pos h2, if_pos h1]; ring
    · exact absurd (Or.inl ⟨h1, h2⟩) h
    · exact absurd (Or.inr ⟨h2, h1⟩) h
    · rw [if_neg h2, if_neg h1]
  · intro hv
    rw [update_pos_vel_x]
    have hne : v.x ≠ -v.x := fun e => hv (by linarith)
    by_cases h1 : p.x + r > MIN_MAX_TABLE 1 <;> by_cases h2 : p.x - r < MIN_MAX_TABLE 0
    · rw [if_pos h2, if_pos h1]
      constructor
      · intro e
        exact absurd (by linarith) hne
      · rintro (⟨_, h⟩ | ⟨_, h⟩)
        · exact absurd h2 h
        · exact absurd h1 h
    · rw [if_neg h2, if_pos h1]
      exact ⟨fun _ => Or.inl ⟨h1, h2⟩, fun _ => by ring⟩
    · rw [if_pos h2, if_neg h1]
      exact ⟨fun _ => Or.inr ⟨h2, h1⟩, fun _ => by ring⟩
    · rw [if_neg h2, if_neg h1]
      constructor
      · intro e
        exact absurd e hne
      · rintro (⟨h, _⟩ | ⟨h, _⟩)
        · exact absurd h h1
        · exact absurd h h2
  · intro h
    rw [update_pos_vel_y]
    rcases h with ⟨h1, h2⟩ | ⟨h1, h2⟩
    · rw [if_neg h2, if_pos h1]; ring
    · rw [if_pos h1, if_neg h2]; ring
  · intro h
    rw [update_pos_vel_y]
    by_cases h1 : p.y + r > MIN_MAX_TABLE 3 <;> by_cases h2 : p.y - r < MIN_MAX_TABLE 2
    · rw [if_pos h2, if_pos h1]; ring
    · exact absurd (Or.inl ⟨h1, h2⟩) h
    · exact absurd (Or.inr ⟨h2, h1⟩) h
    · rw [if_neg h2, if_neg h1]
  · intro hv
    rw [update_pos_vel_y]
    have hne : v.y ≠ -v.y := fun e => hv (by linarith)
    by_cases h1 : p.y + r > MIN_MAX_TABLE 3 <;> by_cases h2 : p.y - r < MIN_MAX_TABLE 2
    · rw [if_pos h2, if_pos h1]
      constructor
      · intro e
        exact absurd (by linarith) hne
      · rintro (⟨_, h⟩ | ⟨_, h⟩)
        · exact absurd h2 h
        · exact absurd h1 h
    · rw [if_neg h2, if_pos h1]
      exact ⟨fun _ => Or.inl ⟨h1, h2⟩, fun _ => by ring⟩
    · rw [if_pos h2, if_neg h1]
      exact ⟨fun _ => Or.inr ⟨h2, h1⟩, fun _ => by ring⟩
    · rw [if_neg h2, if_neg h1]
      constructor
      · intro e
        exact absurd e hne
      · rintro (⟨h, _⟩ | ⟨h, _⟩)
        · exact absurd h h1
        · exact absurd h h2
  · intro py vy
    have e1 := update_pos_vel_x ⟨p.x, py⟩ r ⟨v.x, vy⟩
    have e2 := update_pos_vel_x p r v
    have e3 := (update_pos_pos ⟨p.x, py⟩ r ⟨v.x, vy⟩).1
    have e4 := (update_pos_pos p r v).1
    simp only at e1 e3
    exact ⟨e1.trans e2.symm, by rw [e3, e4, e1, e2]⟩
  · intro px vx
    have e1 := update_pos_vel_y ⟨px, p.y⟩ r ⟨vx, v.y⟩
    have e2 := update_pos_vel_y p r v
    have e3 := (update_pos_pos ⟨px, p.y⟩ r ⟨vx, v.y⟩).2
    have e4 := (update_pos_pos p r v).2
    simp only at e1 e3
    exact ⟨e1.trans e2.symm, by rw [e3, e4, e1, e2]⟩
  · intro a b c d
    simp only [update_pos]
    rw [if_neg (not_lt.mpr b), if_neg (not_lt.mpr a), if_neg (not_lt.mpr d),
      if_neg (not_lt.mpr c)]

/-- C4, as stated, fails: at position (1912, 0) with radius 0 the check
1912 + 0 > 1912 is false, so the velocity is not (-10, 5) and the position is
not (1902, 5) after the step. -/
theorem update_pos_at_maxX_not_flipped :
    ¬ ((update_pos (⟨1912, 0⟩ : vec2 ℝ) 0 ⟨10, 5⟩).2 = ⟨-10, 5⟩
        ∧ (update_pos (⟨1912, 0⟩ : vec2 ℝ) 0 ⟨10, 5⟩).1 = ⟨1902, 5⟩) := by
  rintro ⟨h, -⟩
  have hx := congrArg vec2.x h
  rw [update_pos_vel_x] at hx
  norm_num [MIN_MAX_TABLE] at hx

/-- C4, amended: the boundary is minX=-915, maxX=1912, minY=-1331, maxY=2333.
The body at (1912, 0) with radius 0 and velocity (10, 5) keeps its velocity and
moves to (1922, 5), since the check p.x + r > maxX is strict.  A body at
(px, 0) with px > 1912, radius 0 and velocity (10, 5) has only the x-component
flipped, before the position update: velocity (-10, 5), position (px - 10, 5). -/
theorem update_pos_beyond_maxX (px : ℝ) (h : 1912 < px) :
    ((MIN_MAX_TABLE 0 : ℝ) = -915 ∧ (MIN_MAX_TABLE 1 : ℝ) = 1912
      ∧ (MIN_MAX_TABLE 2 : ℝ) = -1331 ∧ (MIN_MAX_TABLE 3 : ℝ) = 2333)
    ∧ update_pos (⟨1912, 0⟩ : vec2 ℝ) 0 ⟨10, 5⟩ = (⟨1922, 5⟩, ⟨10, 5⟩)
    ∧ update_pos (⟨px, 0⟩ : vec2 ℝ) 0 ⟨10, 5⟩ = (⟨px - 10, 5⟩, ⟨-10, 5⟩) := by
  refine ⟨MIN_MAX_TABLE_values, ?_, ?_⟩
  · simp only [update_pos]
    norm_num [MIN_MAX_TABLE]
  · have h1 : px + 0 > (MIN_MAX_TABLE 1 : ℝ) := by
      rw [MIN_MAX_TABLE_values.2.1]; linarith
    have h2 : ¬ (px - 0 < (MIN_MAX_TABLE 0 : ℝ)) := by
      rw [MIN_MAX_TABLE_values.1]; linarith
    simp only [update_pos]
    rw [if_pos h1, if_neg h2]
    norm_num [MIN_MAX_TABLE]
    ring

/-- Witness for the amended C4: the body at (1913, 0). -/
theorem update_pos_beyond_maxX_witness :
    (1912 : ℝ) < 1913
    ∧ update_pos (⟨1913, 0⟩ : vec2 ℝ) 0 ⟨10, 5⟩ = (⟨1913 - 10, 5⟩, ⟨-10, 5⟩) :=
  ⟨by norm_num, (update_pos_beyond_maxX 1913 (by norm_num)).2.2⟩

/-- C5: a body past both bounds on one axis (p + r > max and p - r < min) has
that velocity component negated twice, so the component keeps its value and the
position on that axis advances by the original component. -/
theorem update_pos_double_flip (p : vec2 ℝ) (r : ℝ) (v : vec2 ℝ) :
    (p.x + r > MIN_MAX_TABLE 1 → p.x - r < MIN_MAX_TABLE 0 →
        (update_pos p r v).2.x = v.x * -1 * -1
        ∧ (update_pos p r v).2.x = v.x
        ∧ (update_pos p r v).1.x = p.x + v.x)
    ∧ (p.y + r > MIN_MAX_TABLE 3 → p.y - r < MIN_MAX_TABLE 2 →
        (update_pos p r v).2.y = v.y * -1 * -1
        ∧ (update_pos p r v).2.y = v.y
        ∧ (update_pos p r v).1.y = p.y + v.y) := by
  constructor
  · intro h1 h2
    have e : (update_pos p r v).2.x = v.x * -1 * -1 := by
      rw [update_pos_vel_x, if_pos h2, if_pos h1]
    have e1 : (update_pos p r v).2.x = v.x := by rw [e]; ring
    exact ⟨e, e1, by rw [(update_pos_pos p r v).1, e1]⟩
  · intro h1 h2
    have e : (update_pos p r v).2.y = v.y * -1 * -1 := by
      rw [update_pos_vel_y, if_pos h2, if_pos h1]
    have e1 : (update_pos p r v).2.y = v.y := by rw [e]; ring
    exact ⟨e, e1, by rw [(update_pos_pos p r v).2, e1]⟩

/-- Witness for C5: a body of radius 3000 at the origin is past both bounds on
both axes; its velocity (10, 5) is kept and it moves to (10, 5). -/
theorem update_pos_double_flip_witness :
    ((0 : ℝ) + 3000 > MIN_MAX_TABLE 1 ∧ (0 : ℝ) - 3000 < MIN_MAX_TABLE 0)
    ∧ (update_pos (⟨0, 0⟩ : vec2 ℝ) 3000 ⟨10, 5⟩).2.x = 10
    ∧ (update_pos (⟨0, 0⟩ : vec2 ℝ) 3000 ⟨10, 5⟩).1.x = 0 + 10 := by
  have h1 : (0 : ℝ) + 3000 > MIN_MAX_TABLE 1 := by norm_num [MIN_MAX_TABLE]
  have h2 : (0 : ℝ) - 3000 < MIN_MAX_TABLE 0 := by norm_num [MIN_MAX_TABLE]
  have h := (update_pos_double_flip (⟨0, 0⟩ : vec2 ℝ) 3000 ⟨10, 5⟩).1 h1 h2
  exact ⟨⟨h1, h2⟩, h.2.1, h.2.2⟩

/-! ## The frame loop -/

section Frame

variable {α : Type} [LinearOrderedField α]

theorem finRange_six : List.finRange 6 = [0, 1, 2, 3, 4, 5] := by
  decide

theorem circle_loop_eq (b : Bodies α) (f : List (JCmd α)) :
    (List.finRange 6).foldl main.circle_step (b, f)
      = (advance_all b, f ++ reference_circles (advance_all b)) := by
  rw [finRange_six]
  simp only [List.foldl, main.circle_step, reference_circles, advance_all, List.flatMap_cons,
    List.flatMap_nil, List.append_nil, List.append_assoc, Function.update_same]
  refine Prod.ext ?_ ?_
  · simp only
    congr 1
    · funext k
      fin_cases k <;> simp [Function.update]
    · funext k
      fin_cases k <;> simp [Function.update]
  · simp [Function.update]

theorem metaball_loop_eq (M : Libm α) (b : Bodies α) (f : List (JCmd α)) :
    (List.finRange 6).foldl (main.metaball_step M b) f = f ++ reference_blends M b := by
  have d0 : List.drop ((0 : Fin 6).val + 1) [(0 : Fin 6), 1, 2, 3, 4, 5] = [1, 2, 3, 4, 5] := rfl
  have d1 : List.drop ((1 : Fin 6).val + 1) [(0 : Fin 6), 1, 2, 3, 4, 5] = [2, 3, 4, 5] := rfl
  have d2 : List.drop ((2 : Fin 6).val + 1) [(0 : Fin 6), 1, 2, 3, 4, 5] = [3, 4, 5] := rfl
  have d3 : List.drop ((3 : Fin 6).val + 1) [(0 : Fin 6), 1, 2, 3, 4, 5] = [4, 5] := rfl
  have d4 : List.drop ((4 : Fin 6).val + 1) [(0 : Fin 6), 1, 2, 3, 4, 5] = [5] := rfl
  have d5 : List.drop ((5 : Fin 6).val + 1) [(0 : Fin 6), 1, 2, 3, 4, 5] = [] := rfl
  rw [finRange_six]
  simp only [List.foldl, main.metaball_step, finRange_six, d0, d1, d2, d3, d4, d5,
    reference_blends, pairs, List.flatMap_cons, List.flatMap_nil, List.append_nil,
    List.append_assoc]
  rfl

theorem frame_eq (M : Libm α) (b : Bodies α) :
    main.frame M b
      = (advance_all b,
          init_graph SCALE ++ (reference_circles (advance_all b)
            ++ reference_blends M (advance_all b))) := by
  simp only [main.frame, circle_loop_eq, metaball_loop_eq, List.append_assoc]

theorem mem_pairs_iff (i j : Fin 6) : (i, j) ∈ pairs ↔ i < j := by
  revert i j
  decide

theorem draw_metaball_length (M : Libm α) (point0 : vec2 α) (radius0 : α)
    (point1 : vec2 α) (radius1 : α) (color : vec3 α) :
    (draw_metaball M point0 radius0 point1 radius1 color).length
      = if eligible M point0 radius0 point1 radius1 then 1 else 0 := by
  split_ifs with h
  · rw [draw_metaball_of_eligible M point0 radius0 point1 radius1 color h]
    rfl
  · rw [(draw_metaball_eq_nil_iff M point0 radius0 point1 radius1 color).mpr h]
    rfl

theorem reference_blends_length (M : Libm α) (b : Bodies α) :
    (reference_blends M b).length
      = pairs.countP fun ij =>
          decide (eligible M (b.poses ij.1) (b.rads ij.1) (b.poses ij.2) (b.rads ij.2)) := by
  unfold reference_blends
  induction pairs with
  | nil => rfl
  | cons ij l ih =>
    rw [List.flatMap_cons, List.length_append, ih, draw_metaball_length, List.countP_cons]
    simp only [decide_eq_true_eq]
    ring

theorem mem_draw_circle (pos : vec2 α) (scale : α) (color : vec3 α) (c : JCmd α)
    (h : c ∈ draw_circle pos scale color) :
    ∃ pts, c = JCmd.poly color pts ∧ pts.length = 13 := by
  simp only [draw_circle, List.mem_singleton] at h
  exact ⟨_, h, rfl⟩

theorem mem_draw_metaball (M : Libm α) (point0 : vec2 α) (radius0 : α)
    (point1 : vec2 α) (radius1 : α) (color : vec3 α) (c : JCmd α)
    (h : c ∈ draw_metaball M point0 radius0 point1 radius1 color) :
    ∃ pts, c = JCmd.poly color pts ∧ pts.length = 10 := by
  by_cases he : eligible M point0 radius0 point1 radius1
  · rw [draw_metaball_of_eligible M point0 radius0 point1 radius1 color he,
      List.mem_singleton] at h
    exact ⟨_, h, rfl⟩
  · rw [(draw_metaball_eq_nil_iff M point0 radius0 point1 radius1 color).mpr he] at h
    exact absurd h (List.not_mem_nil c)

end Frame

/-- C6: one iteration of the frame loop of main leaves the bodies as advancing
all 6 of them by one update_pos step does, and writes, after the header of
init_graph, the reference stream: one circle command per body in index order,
then the results of draw_metaball(i, j) for the pairs i < j in lexicographic
order, all on the advanced bodies.  There are 6 circle commands (13 points
each) and 15 pairs, each pair i < j once and no other; the number of blend
commands (10 points each) is the number of eligible pairs. -/
theorem frame_refines_reference (M : Libm ℝ) (b : Bodies ℝ) :
    main.frame M b = ((reference_frame M b).1, init_graph SCALE ++ (reference_frame M b).2)
    ∧ (reference_frame M b).1 = advance_all b
    ∧ (reference_frame M b).2
        = reference_circles (advance_all b) ++ reference_blends M (advance_all b)
    ∧ (reference_circles (advance_all b)).length = 6
    ∧ (∀ c ∈ reference_circles (advance_all b),
        ∃ pts, c = JCmd.poly main.color pts ∧ pts.length = 13)
    ∧ pairs.length = 15
    ∧ pairs.Nodup
    ∧ (∀ i j : Fin 6, (i, j) ∈ pairs ↔ i < j)
    ∧ (reference_blends M (advance_all b)).length
        = pairs.countP (fun ij =>
            decide (eligible M ((advance_all b).poses ij.1) ((advance_all b).rads ij.1)
              ((advance_all b).poses ij.2) ((advance_all b).rads ij.2)))
    ∧ (∀ c ∈ reference_blends M (advance_all b),
        ∃ pts, c = JCmd.poly main.color pts ∧ pts.length = 10) := by
  refine ⟨frame_eq M b, rfl, rfl, rfl, ?_, rfl, by decide, mem_pairs_iff,
    reference_blends_length M (advance_all b), ?_⟩
  · intro c hc
    obtain ⟨k, -, hk⟩ := List.mem_flatMap.mp hc
    exact mem_draw_circle _ _ _ c hk
  · intro c hc
    obtain ⟨ij, -, hij⟩ := List.mem_flatMap.mp hc
    exact mem_draw_metaball M _ _ _ _ _ c hij

/-! ## The edge point -/

/-- C7, as stated, fails: for the eligible pair with centers (0, 0) and
(150, 0) and radii 100 and 100, angle(point1, point0) does not point from
point1 to point0, and edge is not point1 + radius1*(point0 - point1)/d. -/
theorem edge_not_toward_circle0 :
    eligible realLibm ⟨0, 0⟩ 100 ⟨150, 0⟩ 100
    ∧ ¬ (realLibm.cos (angle realLibm ⟨150, 0⟩ ⟨0, 0⟩)
          = ((0 : ℝ) - 150) / dist realLibm ⟨0, 0⟩ ⟨150, 0⟩)
    ∧ ¬ (draw_metaball.edge realLibm ⟨0, 0⟩ 100 ⟨150, 0⟩ 100
          = ⟨150 + 100 * (0 - 150) / dist realLibm ⟨0, 0⟩ ⟨150, 0⟩,
             0 + 100 * (0 - 0) / dist realLibm ⟨0, 0⟩ ⟨150, 0⟩⟩) := by
  have hd : dist realLibm ⟨0, 0⟩ ⟨150, 0⟩ = 150 := by
    rw [dist_real_horizontal 0 150 (by norm_num)]; norm_num
  have hd1 : dist realLibm ⟨150, 0⟩ ⟨0, 0⟩ = 150 := by rw [dist_real_comm, hd]
  have hc : realLibm.cos (angle realLibm ⟨150, 0⟩ ⟨0, 0⟩) = 1 := by
    rw [cos_angle_real _ _ (by rw [hd1]; norm_num), hd1]
    norm_num
  refine ⟨?_, ?_, ?_⟩
  · simp only [eligible, hd]
    norm_num
  · rw [hc, hd]
    norm_num
  · intro e
    have ex := congrArg vec2.x e
    simp only [draw_metaball.edge, get_vector] at ex
    rw [hc, hd] at ex
    norm_num at ex

/-- C7, amended: for an eligible pair, d = dist(point0, point1) > 0 and
radius1 > 0; angle(point1, point0) is the direction from point0 to point1; and
edge is the point of circle 1 on the side away from circle 0:
dist(edge, point1) = radius1 and edge = point1 + radius1*(point1 - point0)/d. -/
theorem edge_away_from_circle0 (point0 point1 : vec2 ℝ) (radius0 radius1 : ℝ)
    (h : ¬ (radius0 = 0 ∨ radius1 = 0
          ∨ dist realLibm point0 point1 > radius0 + 2.5 * radius1
          ∨ dist realLibm point0 point1 ≤ |radius0 - radius1|)) :
    0 < dist realLibm point0 point1
    ∧ 0 < radius1
    ∧ realLibm.cos (angle realLibm point1 point0)
        = (point1.x - point0.x) / dist realLibm point0 point1
    ∧ realLibm.sin (angle realLibm point1 point0)
        = (point1.y - point0.y) / dist realLibm point0 point1
    ∧ dist realLibm (draw_metaball.edge realLibm point0 radius0 point1 radius1) point1
        = radius1
    ∧ draw_metaball.edge realLibm point0 radius0 point1 radius1
        = ⟨point1.x + radius1 * ((point1.x - point0.x) / dist realLibm point0 point1),
           point1.y + radius1 * ((point1.y - point0.y) / dist realLibm point0 point1)⟩ := by
  obtain ⟨hd, hr⟩ := eligible_real_pos realLibm point0 point1 radius0 radius1 h
  have hd1 : dist realLibm point1 point0 ≠ 0 := by
    rw [dist_real_comm]; exact ne_of_gt hd
  have hc := cos_angle_real point1 point0 hd1
  have hs := sin_angle_real point1 point0
  rw [dist_real_comm point1 point0] at hc hs
  refine ⟨hd, hr, hc, hs, ?_, ?_⟩
  · exact get_vector_real_dist point1 _ radius1 (le_of_lt hr)
  · simp only [draw_metaball.edge, get_vector]
    rw [hc, hs]

/-- Witness for the amended C7: centers (0, 0) and (150, 0), radii 100 and
100; the edge point is (250, 0). -/
theorem edge_away_from_circle0_witness :
    (¬ ((100 : ℝ) = 0 ∨ (100 : ℝ) = 0
        ∨ dist realLibm ⟨0, 0⟩ ⟨150, 0⟩ > (100 : ℝ) + 2.5 * 100
        ∨ dist realLibm ⟨0, 0⟩ ⟨150, 0⟩ ≤ |(100 : ℝ) - 100|))
    ∧ draw_metaball.edge realLibm ⟨0, 0⟩ 100 ⟨150, 0⟩ 100 = ⟨250, 0⟩ := by
  have hd : dist realLibm ⟨0, 0⟩ ⟨150, 0⟩ = 150 := by
    rw [dist_real_horizontal 0 150 (by norm_num)]; norm_num
  have he : ¬ ((100 : ℝ) = 0 ∨ (100 : ℝ) = 0
        ∨ dist realLibm ⟨0, 0⟩ ⟨150, 0⟩ > (100 : ℝ) + 2.5 * 100
        ∨ dist realLibm ⟨0, 0⟩ ⟨150, 0⟩ ≤ |(100 : ℝ) - 100|) := by
    rw [hd]; norm_num
  refine ⟨he, ?_⟩
  rw [(edge_away_from_circle0 ⟨0, 0⟩ ⟨150, 0⟩ 100 100 he).2.2.2.2.2, hd]
  norm_num

/-! ## draw_circle -/

theorem C_value : (C : ℝ) = 0.5519150244935105707435627 := rfl

theorem C_nonneg : (0 : ℝ) ≤ C := by
  rw [C_value]; norm_num

/-- C8: for s >= 0, draw_circle prints 13 points q0..q12 with q12 = q0; the
anchors q0, q3, q6, q9, q12 are at distance s from the center; each handle
(q1, q2, q4, q5, q7, q8, q10, q11) is at distance C*s from its adjacent anchor
and its offset from that anchor is perpendicular to the radius through the
anchor (it lies on the tangent); C = 0.5519150244935105707435627.  For s = 0
all 13 points are the center. -/
theorem draw_circle_outline (p : vec2 ℝ) (s : ℝ) (color : vec3 ℝ) (hs : 0 ≤ s) :
    ∃ q0 q1 q2 q3 q4 q5 q6 q7 q8 q9 q10 q11 q12 : vec2 ℝ,
      draw_circle p s color
        = [JCmd.poly color [q0, q1, q2, q3, q4, q5, q6, q7, q8, q9, q10, q11, q12]]
      ∧ [q0, q1, q2, q3, q4, q5, q6, q7, q8, q9, q10, q11, q12].length = 13
      ∧ q12 = q0
      ∧ (dist realLibm q0 p = s ∧ dist realLibm q3 p = s ∧ dist realLibm q6 p = s
          ∧ dist realLibm q9 p = s ∧ dist realLibm q12 p = s)
      ∧ (C : ℝ) = 0.5519150244935105707435627
      ∧ (dist realLibm q1 q0 = C * s ∧ dist realLibm q2 q3 = C * s
          ∧ dist realLibm q4 q3 = C * s ∧ dist realLibm q5 q6 = C * s
          ∧ dist realLibm q7 q6 = C * s ∧ dist realLibm q8 q9 = C * s
          ∧ dist realLibm q10 q9 = C * s ∧ dist realLibm q11 q12 = C * s)
      ∧ ((q1.x - q0.x) * (q0.x - p.x) + (q1.y - q0.y) * (q0.y - p.y) = 0
          ∧ (q2.x - q3.x) * (q3.x - p.x) + (q2.y - q3.y) * (q3.y - p.y) = 0
          ∧ (q4.x - q3.x) * (q3.x - p.x) + (q4.y - q3.y) * (q3.y - p.y) = 0
          ∧ (q5.x - q6.x) * (q6.x - p.x) + (q5.y - q6.y) * (q6.y - p.y) = 0
          ∧ (q7.x - q6.x) * (q6.x - p.x) + (q7.y - q6.y) * (q6.y - p.y) = 0
          ∧ (q8.x - q9.x) * (q9.x - p.x) + (q8.y - q9.y) * (q9.y - p.y) = 0
          ∧ (q10.x - q9.x) * (q9.x - p.x) + (q10.y - q9.y) * (q9.y - p.y) = 0
          ∧ (q11.x - q12.x) * (q12.x - p.x) + (q11.y - q12.y) * (q12.y - p.y) = 0)
      ∧ (s = 0 → ∀ q ∈ [q0, q1, q2, q3, q4, q5, q6, q7, q8, q9, q10, q11, q12], q = p) := by
  have hcs : (0 : ℝ) ≤ C * s := mul_nonneg C_nonneg hs
  refine ⟨_, _, _, _, _, _, _, _, _, _, _, _, _, rfl, rfl, rfl, ⟨?_, ?_, ?_, ?_, ?_⟩, C_value,
    ⟨?_, ?_, ?_, ?_, ?_, ?_, ?_, ?_⟩, ⟨?_, ?_, ?_, ?_, ?_, ?_, ?_, ?_⟩, ?_⟩
  · exact dist_real_of_sq _ _ _ hs (by ring)
  · exact dist_real_of_sq _ _ _ hs (by ring)
  · exact dist_real_of_sq _ _ _ hs (by ring)
  · exact dist_real_of_sq _ _ _ hs (by ring)
  · exact dist_real_of_sq _ _ _ hs (by ring)
  · exact dist_real_of_sq _ _ _ hcs (by ring)
  · exact dist_real_of_sq _ _ _ hcs (by ring)
  · exact dist_real_of_sq _ _ _ hcs (by ring)
  · exact dist_real_of_sq _ _ _ hcs (by ring)
  · exact dist_real_of_sq _ _ _ hcs (by ring)
  · exact dist_real_of_sq _ _ _ hcs (by ring)
  · exact dist_real_of_sq _ _ _ hcs (by ring)
  · exact dist_real_of_sq _ _ _ hcs (by ring)
  · ring
  · ring
  · ring
  · ring
  · ring
  · ring
  · ring
  · ring
  · intro h0 q hq
    subst h0
    simp only [List.mem_cons, List.mem_singleton, List.not_mem_nil, or_false] at hq
    rcases hq with h | h | h | h | h | h | h | h | h | h | h | h | h <;>
      · rw [h]
        ext <;> simp

/-- Witness for C8: the circle of radius 3 around (1, 2) starts and ends at
(1, -1). -/
theorem draw_circle_outline_witness :
    (0 : ℝ) ≤ 3
    ∧ ∃ q0 q1 q2 q3 q4 q5 q6 q7 q8 q9 q10 q11 q12 : vec2 ℝ,
        draw_circle ⟨1, 2⟩ 3 ⟨0, 0, 0⟩
          = [JCmd.poly ⟨0, 0, 0⟩ [q0, q1, q2, q3, q4, q5, q6, q7, q8, q9, q10, q11, q12]]
        ∧ q12 = q0
        ∧ dist realLibm q0 ⟨1, 2⟩ = 3
        ∧ dist realLibm q1 q0 = C * 3 := by
  refine ⟨by norm_num, ?_⟩
  obtain ⟨q0, q1, q2, q3, q4, q5, q6, q7, q8, q9, q10, q11, q12, e, -, hc, ha, -, hh, -⟩ :=
    draw_circle_outline ⟨1, 2⟩ 3 ⟨0, 0, 0⟩ (by norm_num)
  exact ⟨q0, q1, q2, q3, q4, q5, q6, q7, q8, q9, q10, q11, q12, e, hc, ha.1, hh.1⟩

/-- C9, as stated, fails: for center (0, 0) and radius 1 the printed points at
indices 0, 3, 6, 9, 12 are not (0, 1), (1, 0), (0, -1), (-1, 0), (0, 1). -/
theorem draw_circle_not_from_top :
    ¬ ∃ pts : List (vec2 ℝ),
        draw_circle (⟨0, 0⟩ : vec2 ℝ) 1 ⟨0, 0, 0⟩ = [JCmd.poly ⟨0, 0, 0⟩ pts]
        ∧ pts[0]? = some ⟨0, 0 + 1⟩ ∧ pts[3]? = some ⟨0 + 1, 0⟩
        ∧ pts[6]? = some ⟨0, 0 - 1⟩ ∧ pts[9]? = some ⟨0 - 1, 0⟩
        ∧ pts[12]? = some ⟨0, 0 + 1⟩ := by
  rintro ⟨pts, e, h0, -⟩
  simp only [draw_circle, List.cons.injEq, JCmd.poly.injEq, true_and, and_true] at e
  rw [← e] at h0
  simp only [List.getElem?_cons_zero, Option.some.injEq, vec2.mk.injEq] at h0
  norm_num at h0

/-- C9, amended: for s > 0 the printed outline starts at the point of the
circle with the smallest y, (x, y - s), and visits (x + s, y), (x, y + s) and
(x - s, y) before returning to (x, y - s), at indices 0, 3, 6, 9, 12.  With y
increasing upward this is bottom, right, top, left, bottom. -/
theorem draw_circle_anchor_sequence (x y s : ℝ) (color : vec3 ℝ) (hs : 0 < s) :
    ∃ pts : List (vec2 ℝ),
      draw_circle ⟨x, y⟩ s color = [JCmd.poly color pts]
      ∧ pts[0]? = some ⟨x, y - s⟩ ∧ pts[3]? = some ⟨x + s, y⟩
      ∧ pts[6]? = some ⟨x, y + s⟩ ∧ pts[9]? = some ⟨x - s, y⟩
      ∧ pts[12]? = some ⟨x, y - s⟩
      ∧ y - s < y ∧ y < y + s ∧ x - s < x ∧ x < x + s
      ∧ (∀ q ∈ pts, y - s ≤ q.y ∧ q.y ≤ y + s ∧ x - s ≤ q.x ∧ q.x ≤ x + s) := by
  refine ⟨_, rfl, rfl, rfl, rfl, rfl, rfl, by linarith, by linarith, by linarith,
    by linarith, ?_⟩
  intro q hq
  have hC : (0 : ℝ) ≤ C := C_nonneg
  have hC1 : (C : ℝ) ≤ 1 := by rw [C_value]; norm_num
  have h1 : 0 ≤ C * s := mul_nonneg hC (le_of_lt hs)
  have h2 : C * s ≤ s := by nlinarith
  simp only [List.mem_cons, List.mem_singleton, List.not_mem_nil, or_false] at hq
  rcases hq with h | h | h | h | h | h | h | h | h | h | h | h | h <;>
    · rw [h]
      refine ⟨?_, ?_, ?_, ?_⟩ <;> simp only <;> linarith

/-- Witness for the amended C9: center (0, 0), radius 1. -/
theorem draw_circle_anchor_sequence_witness :
    (0 : ℝ) < 1
    ∧ ∃ pts : List (vec2 ℝ),
        draw_circle (⟨0, 0⟩ : vec2 ℝ) 1 ⟨0, 0, 0⟩ = [JCmd.poly ⟨0, 0, 0⟩ pts]
        ∧ pts[0]? = some ⟨0, 0 - 1⟩ ∧ pts[6]? = some ⟨0, 0 + 1⟩ := by
  refine ⟨by norm_num, ?_⟩
  obtain ⟨pts, e, h0, -, h6, -⟩ := draw_circle_anchor_sequence 0 0 1 ⟨0, 0, 0⟩ (by norm_num)
  exact ⟨pts, e, h0, h6⟩

/-! ## The gate of draw_metaball -/

theorem update_pos_zero_vel (p : vec2 ℝ) (r : ℝ) : update_pos p r ⟨0, 0⟩ = (p, ⟨0, 0⟩) := by
  simp only [update_pos]
  split_ifs <;> simp

theorem advance_all_zero_vel (poses : Fin 6 → vec2 ℝ) (rads : Fin 6 → ℝ) :
    advance_all ⟨poses, fun _ => ⟨0, 0⟩, rads⟩ = ⟨poses, fun _ => ⟨0, 0⟩, rads⟩ := by
  simp only [advance_all, update_pos_zero_vel]

theorem frame_length (M : Libm ℝ) (b : Bodies ℝ) :
    (main.frame M b).2.length
      = 3 + 6 + pairs.countP (fun ij =>
          decide (eligible M ((advance_all b).poses ij.1) ((advance_all b).rads ij.1)
            ((advance_all b).poses ij.2) ((advance_all b).rads ij.2))) := by
  rw [frame_eq, List.length_append, List.length_append, reference_blends_length]
  have h3 : (init_graph (SCALE : ℝ)).length = 3 := rfl
  have h6 : (reference_circles (advance_all b)).length = 6 := rfl
  rw [h3, h6, add_assoc]

/-- C12: the eligibility test is not symmetric.  With radius0 = 50,
radius1 = 100 and the centers 230 apart draw_metaball prints an outline, and
with the two circles exchanged it prints nothing (for any centers at that
distance, and for the centers (0, 0) and (230, 0)).  In the frame loop: with
these two circles as bodies 0 and 1 (the other four of radius 0, all at rest)
the frame file has 3 header lines, 6 circles and 1 blend; with bodies 0 and 1
exchanged it has no blend. -/
theorem draw_metaball_not_symmetric :
    (∃ (point0 point1 : vec2 ℝ) (radius0 radius1 : ℝ) (color : vec3 ℝ),
        draw_metaball realLibm point0 radius0 point1 radius1 color ≠ []
        ∧ draw_metaball realLibm point1 radius1 point0 radius0 color = [])
    ∧ (∀ (M : Libm ℝ) (point0 point1 : vec2 ℝ) (color : vec3 ℝ),
        dist M point0 point1 = 230 → dist M point1 point0 = 230 →
        draw_metaball M point0 50 point1 100 color ≠ []
        ∧ draw_metaball M point1 100 point0 50 color = [])
    ∧ (main.frame realLibm
          ⟨![⟨0, 0⟩, ⟨230, 0⟩, ⟨0, 0⟩, ⟨0, 0⟩, ⟨0, 0⟩, ⟨0, 0⟩], fun _ => ⟨0, 0⟩,
            ![50, 100, 0, 0, 0, 0]⟩).2.length = 3 + 6 + 1
    ∧ (main.frame realLibm
          ⟨![⟨230, 0⟩, ⟨0, 0⟩, ⟨0, 0⟩, ⟨0, 0⟩, ⟨0, 0⟩, ⟨0, 0⟩], fun _ => ⟨0, 0⟩,
            ![100, 50, 0, 0, 0, 0]⟩).2.length = 3 + 6 + 0 := by
  have hd : dist realLibm ⟨0, 0⟩ ⟨230, 0⟩ = 230 := by
    rw [dist_real_horizontal 0 230 (by norm_num)]; norm_num
  have hd1 : dist realLibm ⟨230, 0⟩ ⟨0, 0⟩ = 230 := by rw [dist_real_comm, hd]
  have gen : ∀ (M : Libm ℝ) (point0 point1 : vec2 ℝ) (color : vec3 ℝ),
      dist M point0 point1 = 230 → dist M point1 point0 = 230 →
      draw_metaball M point0 50 point1 100 color ≠ []
      ∧ draw_metaball M point1 100 point0 50 color = [] := by
    intro M point0 point1 color h01 h10
    constructor
    · rw [Ne, draw_metaball_eq_nil_iff, not_not]
      simp only [eligible, h01]
      norm_num
    · rw [draw_metaball_eq_nil_iff]
      simp only [eligible, h10]
      norm_num
  have r2 : ∀ a b : ℝ, ![a, b, 0, 0, 0, 0] (2 : Fin 6) = 0 := fun _ _ => rfl
  have r3 : ∀ a b : ℝ, ![a, b, 0, 0, 0, 0] (3 : Fin 6) = 0 := fun _ _ => rfl
  have r4 : ∀ a b : ℝ, ![a, b, 0, 0, 0, 0] (4 : Fin 6) = 0 := fun _ _ => rfl
  have r5 : ∀ a b : ℝ, ![a, b, 0, 0, 0, 0] (5 : Fin 6) = 0 := fun _ _ => rfl
  refine ⟨⟨⟨0, 0⟩, ⟨230, 0⟩, 50, 100, ⟨0, 0, 0⟩, gen realLibm _ _ _ hd hd1⟩, gen, ?_, ?_⟩
  · rw [frame_length, advance_all_zero_vel]
    congr 1
    simp [pairs, List.countP_cons, eligible, hd, r2, r3, r4, r5]
    norm_num
  · rw [frame_length, advance_all_zero_vel]
    congr 1
    simp [pairs, List.countP_cons, eligible, hd1, r2, r3, r4, r5]
    norm_num

/-! ## The initialisation of main -/

theorem x_range_value : double_to_int ((MIN_MAX_TABLE 1 : ℝ) - MIN_MAX_TABLE 0) = 2827 := by
  have e : (MIN_MAX_TABLE 1 : ℝ) - MIN_MAX_TABLE 0 = ((2827 : ℤ) : ℝ) := by
    norm_num [MIN_MAX_TABLE]
  rw [e]
  simp only [double_to_int, Int.floor_intCast, Int.ceil_intCast, ite_self]

theorem y_range_value : double_to_int ((MIN_MAX_TABLE 3 : ℝ) - MIN_MAX_TABLE 2) = 3664 := by
  have e : (MIN_MAX_TABLE 3 : ℝ) - MIN_MAX_TABLE 2 = ((3664 : ℤ) : ℝ) := by
    norm_num [MIN_MAX_TABLE]
  rw [e]
  simp only [double_to_int, Int.floor_intCast, Int.ceil_intCast, ite_self]

theorem rand_mod_bounds (n : ℕ) (m : ℤ) (hm : 0 < m) :
    (0 : ℝ) ≤ (((n : ℤ) % m : ℤ) : ℝ) ∧ (((n : ℤ) % m : ℤ) : ℝ) ≤ ((m - 1 : ℤ) : ℝ) := by
  have h1 : 0 ≤ (n : ℤ) % m := Int.emod_nonneg _ (ne_of_gt hm)
  have h2 : (n : ℤ) % m < m := Int.emod_lt_of_pos _ hm
  constructor
  · exact_mod_cast h1
  · exact_mod_cast Int.le_sub_one_of_lt h2

theorem random_pos_init_x (rand_x rand_y : ℕ) :
    (random_pos_init rand_x rand_y : vec2 ℝ).x
      = ((((rand_x : ℤ) % 60 : ℤ) : ℝ) + 20) * 2827 / 100 - 915 := by
  simp only [random_pos_init, x_range_value]
  norm_num [MIN_MAX_TABLE]
  ring

theorem random_pos_init_y (rand_x rand_y : ℕ) :
    (random_pos_init rand_x rand_y : vec2 ℝ).y
      = ((((rand_y : ℤ) % 60 : ℤ) : ℝ) + 20) * 3664 / 100 - 1331 := by
  simp only [random_pos_init, y_range_value]
  norm_num [MIN_MAX_TABLE]
  ring

theorem random_vel_init_x (rand_x rand_y : ℕ) :
    (random_vel_init rand_x rand_y : vec2 ℝ).x = (((rand_x : ℤ) % 100 : ℤ) : ℝ) - 50 := by
  simp only [random_vel_init]
  push_cast
  ring

theorem random_vel_init_y (rand_x rand_y : ℕ) :
    (random_vel_init rand_x rand_y : vec2 ℝ).y = (((rand_y : ℤ) % 120 : ℤ) : ℝ) - 60 := by
  simp only [random_vel_init]
  push_cast
  ring

theorem init_poses (R : RandCalls) (k : Fin 6) :
    (main.init R : Bodies ℝ).poses k = random_pos_init (R.pos_x k) (R.pos_y k) := by
  fin_cases k <;> rfl

theorem init_vels (R : RandCalls) (k : Fin 6) :
    (main.init R : Bodies ℝ).vels k = random_vel_init (R.vel_x k) (R.vel_y k) := by
  fin_cases k <;> rfl

theorem init_rads (R : RandCalls) (k : Fin 6) :
    (main.init R : Bodies ℝ).rads k
      = if k.val % 2 = 0 then (((R.rad k : ℤ) % 400 + 50 : ℤ) : ℝ)
        else (((R.rad k : ℤ) % 50 + 150 : ℤ) : ℝ) := by
  fin_cases k <;> rfl

theorem init_rads_bounds (R : RandCalls) (k : Fin 6) :
    (50 : ℝ) ≤ (main.init R : Bodies ℝ).rads k ∧ (main.init R : Bodies ℝ).rads k ≤ 449 := by
  rw [init_rads]
  have h1 := rand_mod_bounds (R.rad k) 400 (by norm_num)
  have h2 := rand_mod_bounds (R.rad k) 50 (by norm_num)
  push_cast at h1 h2
  split_ifs <;> push_cast <;> constructor <;> linarith [h1.1, h1.2, h2.1, h2.2]

theorem init_pos_bounds (R : RandCalls) (k : Fin 6) :
    ((-349.6 : ℝ) ≤ ((main.init R : Bodies ℝ).poses k).x
      ∧ ((main.init R : Bodies ℝ).poses k).x ≤ 1318.33)
    ∧ ((-598.2 : ℝ) ≤ ((main.init R : Bodies ℝ).poses k).y
      ∧ ((main.init R : Bodies ℝ).poses k).y ≤ 1563.56) := by
  rw [init_poses, random_pos_init_x, random_pos_init_y]
  have h1 := rand_mod_bounds (R.pos_x k) 60 (by norm_num)
  have h2 := rand_mod_bounds (R.pos_y k) 60 (by norm_num)
  push_cast at h1 h2
  refine ⟨⟨?_, ?_⟩, ⟨?_, ?_⟩⟩ <;> norm_num <;> linarith [h1.1, h1.2, h2.1, h2.2]

theorem init_vel_bounds (R : RandCalls) (k : Fin 6) :
    ((-50 : ℝ) ≤ ((main.init R : Bodies ℝ).vels k).x
      ∧ ((main.init R : Bodies ℝ).vels k).x ≤ 49)
    ∧ ((-60 : ℝ) ≤ ((main.init R : Bodies ℝ).vels k).y
      ∧ ((main.init R : Bodies ℝ).vels k).y ≤ 59) := by
  rw [init_vels, random_vel_init_x, random_vel_init_y]
  have h1 := rand_mod_bounds (R.vel_x k) 100 (by norm_num)
  have h2 := rand_mod_bounds (R.vel_y k) 120 (by norm_num)
  push_cast at h1 h2
  refine ⟨⟨?_, ?_⟩, ⟨?_, ?_⟩⟩ <;> linarith [h1.1, h1.2, h2.1, h2.2]

/-- C13: whatever the calls of rand() return, each of the 6 bodies that the
initialisers of main build lies strictly inside the boundary minX=-915,
maxX=1912, minY=-1331, maxY=2333 on both axes, so none of the four checks of
update_pos holds on the first step: the velocity is kept and the body moves to
p + v. -/
theorem init_bodies_inside (R : RandCalls) (k : Fin 6) :
    ((MIN_MAX_TABLE 0 : ℝ) = -915 ∧ (MIN_MAX_TABLE 1 : ℝ) = 1912
      ∧ (MIN_MAX_TABLE 2 : ℝ) = -1331 ∧ (MIN_MAX_TABLE 3 : ℝ) = 2333)
    ∧ MIN_MAX_TABLE 0 < ((main.init R : Bodies ℝ).poses k).x - (main.init R : Bodies ℝ).rads k
    ∧ ((main.init R : Bodies ℝ).poses k).x + (main.init R : Bodies ℝ).rads k < MIN_MAX_TABLE 1
    ∧ MIN_MAX_TABLE 2 < ((main.init R : Bodies ℝ).poses k).y - (main.init R : Bodies ℝ).rads k
    ∧ ((main.init R : Bodies ℝ).poses k).y + (main.init R : Bodies ℝ).rads k < MIN_MAX_TABLE 3
    ∧ update_pos ((main.init R : Bodies ℝ).poses k) ((main.init R : Bodies ℝ).rads k)
          ((main.init R : Bodies ℝ).vels k)
        = (⟨((main.init R : Bodies ℝ).poses k).x + ((main.init R : Bodies ℝ).vels k).x,
            ((main.init R : Bodies ℝ).poses k).y + ((main.init R : Bodies ℝ).vels k).y⟩,
           (main.init R : Bodies ℝ).vels k) := by
  obtain ⟨⟨hx1, hx2⟩, ⟨hy1, hy2⟩⟩ := init_pos_bounds R k
  obtain ⟨hr1, hr2⟩ := init_rads_bounds R k
  obtain ⟨t0, t1, t2, t3⟩ := MIN_MAX_TABLE_values
  have a0 : MIN_MAX_TABLE 0
      < ((main.init R : Bodies ℝ).poses k).x - (main.init R : Bodies ℝ).rads k := by
    rw [t0]; norm_num at hx1; linarith
  have a1 : ((main.init R : Bodies ℝ).poses k).x + (main.init R : Bodies ℝ).rads k
      < MIN_MAX_TABLE 1 := by
    rw [t1]; norm_num at hx2; linarith
  have a2 : MIN_MAX_TABLE 2
      < ((main.init R : Bodies ℝ).poses k).y - (main.init R : Bodies ℝ).rads k := by
    rw [t2]; norm_num at hy1; linarith
  have a3 : ((main.init R : Bodies ℝ).poses k).y + (main.init R : Bodies ℝ).rads k
      < MIN_MAX_TABLE 3 := by
    rw [t3]; norm_num at hy2; linarith
  refine ⟨MIN_MAX_TABLE_values, a0, a1, a2, a3, ?_⟩
  simp only [update_pos]
  rw [if_neg (not_lt.mpr (le_of_lt a1)), if_neg (not_lt.mpr (le_of_lt a0)),
    if_neg (not_lt.mpr (le_of_lt a3)), if_neg (not_lt.mpr (le_of_lt a2))]

/-- C14: whatever the calls of rand() return, each initial position coordinate
lies between 20% and 80% of the boundary span on its axis, each initial
velocity has -50 <= v.x < 50 and -60 <= v.y < 60, and each initial radius lies
in [50, 450) for an even index and in [150, 200) for an odd index. -/
theorem init_ranges (R : RandCalls) (k : Fin 6) :
    (MIN_MAX_TABLE 0 + 0.2 * (MIN_MAX_TABLE 1 - MIN_MAX_TABLE 0)
        ≤ ((main.init R : Bodies ℝ).poses k).x
      ∧ ((main.init R : Bodies ℝ).poses k).x
        ≤ MIN_MAX_TABLE 0 + 0.8 * (MIN_MAX_TABLE 1 - MIN_MAX_TABLE 0))
    ∧ (MIN_MAX_TABLE 2 + 0.2 * (MIN_MAX_TABLE 3 - MIN_MAX_TABLE 2)
        ≤ ((main.init R : Bodies ℝ).poses k).y
      ∧ ((main.init R : Bodies ℝ).poses k).y
        ≤ MIN_MAX_TABLE 2 + 0.8 * (MIN_MAX_TABLE 3 - MIN_MAX_TABLE 2))
    ∧ ((-50 : ℝ) ≤ ((main.init R : Bodies ℝ).vels k).x
      ∧ ((main.init R : Bodies ℝ).vels k).x < 50)
    ∧ ((-60 : ℝ) ≤ ((main.init R : Bodies ℝ).vels k).y
      ∧ ((main.init R : Bodies ℝ).vels k).y < 60)
    ∧ (k.val % 2 = 0 → (50 : ℝ) ≤ (main.init R : Bodies ℝ).rads k
        ∧ (main.init R : Bodies ℝ).rads k < 450)
    ∧ (k.val % 2 = 1 → (150 : ℝ) ≤ (main.init R : Bodies ℝ).rads k
        ∧ (main.init R : Bodies ℝ).rads k < 200) := by
  obtain ⟨⟨hx1, hx2⟩, ⟨hy1, hy2⟩⟩ := init_pos_bounds R k
  obtain ⟨⟨hv1, hv2⟩, ⟨hv3, hv4⟩⟩ := init_vel_bounds R k
  obtain ⟨hr1, hr2⟩ := init_rads_bounds R k
  obtain ⟨t0, t1, t2, t3⟩ := MIN_MAX_TABLE_values
  rw [t0, t1, t2, t3]
  norm_num at hx1 hx2 hy1 hy2
  refine ⟨⟨?_, ?_⟩, ⟨?_, ?_⟩, ⟨hv1, by linarith⟩, ⟨hv3, by linarith⟩, ?_, ?_⟩
  · norm_num; linarith
  · norm_num; linarith
  · norm_num; linarith
  · norm_num; linarith
  · intro _
    exact ⟨hr1, by linarith⟩
  · intro hk
    rw [init_rads, if_neg (by omega)]
    have h2 := rand_mod_bounds (R.rad k) 50 (by norm_num)
    push_cast at h2 ⊢
    exact ⟨by linarith [h2.1], by linarith [h2.2]⟩

/-! ## Mirror symmetry of the outline -/

theorem axis_inv_init (lo hi r p v : ℝ) (h0 : lo ≤ p - r) (h1 : p + r ≤ hi) :
    axis_inv lo hi r |v| p v := by
  have hv := abs_nonneg v
  refine ⟨rfl, fun h => absurd h.1 (not_lt.mpr h1), by linarith, by linarith, ?_, ?_⟩
  · intro h; exact absurd h (not_lt.mpr h1)
  · intro h; exact absurd h (not_lt.mpr h0)

theorem axis_inv_step (lo hi r V p v : ℝ) (h : axis_inv lo hi r V p v) :
    axis_inv lo hi r V
      (p + (if p - r < lo then (if p + r > hi then v * -1 else v) * -1
            else (if p + r > hi then v * -1 else v)))
      (if p - r < lo then (if p + r > hi then v * -1 else v) * -1
        else (if p + r > hi then v * -1 else v)) := by
  obtain ⟨hV, hnb, h1, h2, h3, h4⟩ := h
  have hV0 : 0 ≤ V := by rw [← hV]; exact abs_nonneg v
  have hle : v ≤ V := by rw [← hV]; exact le_abs_self v
  have hge : -V ≤ v := by rw [← hV]; exact neg_abs_le v
  by_cases c1 : p + r > hi <;> by_cases c0 : p - r < lo
  · exact absurd ⟨c1, c0⟩ hnb
  · rw [if_neg c0, if_pos c1, h3 c1]
    have e : V * -1 = -V := by ring
    rw [e]
    refine ⟨by rw [abs_neg, abs_of_nonneg hV0], ?_, by linarith, by linarith, ?_, fun _ => rfl⟩
    · intro hb; linarith [hb.1]
    · intro hb; linarith
  · rw [if_pos c0, if_neg c1, h4 c0]
    have e : -V * -1 = V := by ring
    rw [e]
    refine ⟨abs_of_nonneg hV0, ?_, by linarith, by linarith, fun _ => rfl, ?_⟩
    · intro hb; linarith [hb.2]
    · intro hb; linarith
  · rw [if_neg c0, if_neg c1]
    refine ⟨hV, ?_, by linarith, by linarith, ?_, ?_⟩
    · intro hb; linarith [hb.1, hb.2]
    · intro hb
      have hpos : 0 < v := by linarith
      rw [← hV, abs_of_pos hpos]
    · intro hb
      have hneg : v < 0 := by linarith
      rw [← hV, abs_of_neg hneg, neg_neg]

theorem update_pos_steps_inv (p : vec2 ℝ) (r : ℝ) (v : vec2 ℝ)
    (hx0 : MIN_MAX_TABLE 0 ≤ p.x - r) (hx1 : p.x + r ≤ MIN_MAX_TABLE 1)
    (hy0 : MIN_MAX_TABLE 2 ≤ p.y - r) (hy1 : p.y + r ≤ MIN_MAX_TABLE 3) (n : ℕ) :
    axis_inv (MIN_MAX_TABLE 0) (MIN_MAX_TABLE 1) r |v.x|
        (update_pos_steps r n (p, v)).1.x (update_pos_steps r n (p, v)).2.x
    ∧ axis_inv (MIN_MAX_TABLE 2) (MIN_MAX_TABLE 3) r |v.y|
        (update_pos_steps r n (p, v)).1.y (update_pos_steps r n (p, v)).2.y := by
  induction n with
  | zero => exact ⟨axis_inv_init _ _ _ _ _ hx0 hx1, axis_inv_init _ _ _ _ _ hy0 hy1⟩
  | succ n ih =>
    simp only [update_pos_steps]
    rw [(update_pos_pos _ _ _).1, (update_pos_pos _ _ _).2, update_pos_vel_x, update_pos_vel_y]
    exact ⟨axis_inv_step _ _ _ _ _ _ ih.1, axis_inv_step _ _ _ _ _ _ ih.2⟩

/-- C18: a body with radius r >= 0 that starts inside the boundary on both
axes, with 2r + |v.x| <= maxX - minX and 2r + |v.y| <= maxY - minY, satisfies
after any number n of update_pos steps: |v.x| and |v.y| are the initial ones,
the two checks of an axis are never both true, and the body is beyond a wall
by at most one step of travel.  Every body built by the initialisers of main
meets these preconditions, whatever the calls of rand() return. -/
theorem update_pos_orbit_bounded (p : vec2 ℝ) (r : ℝ) (v : vec2 ℝ) (n : ℕ)
    (hr : 0 ≤ r)
    (hx0 : MIN_MAX_TABLE 0 ≤ p.x - r) (hx1 : p.x + r ≤ MIN_MAX_TABLE 1)
    (hy0 : MIN_MAX_TABLE 2 ≤ p.y - r) (hy1 : p.y + r ≤ MIN_MAX_TABLE 3)
    (hvx : 2 * r + |v.x| ≤ MIN_MAX_TABLE 1 - MIN_MAX_TABLE 0)
    (hvy : 2 * r + |v.y| ≤ MIN_MAX_TABLE 3 - MIN_MAX_TABLE 2) :
    (|(update_pos_steps r n (p, v)).2.x| = |v.x|
      ∧ |(update_pos_steps r n (p, v)).2.y| = |v.y|)
    ∧ (¬ ((update_pos_steps r n (p, v)).1.x + r > MIN_MAX_TABLE 1
          ∧ (update_pos_steps r n (p, v)).1.x - r < MIN_MAX_TABLE 0)
      ∧ ¬ ((update_pos_steps r n (p, v)).1.y + r > MIN_MAX_TABLE 3
          ∧ (update_pos_steps r n (p, v)).1.y - r < MIN_MAX_TABLE 2))
    ∧ ((update_pos_steps r n (p, v)).1.x + r ≤ MIN_MAX_TABLE 1 + |v.x|
      ∧ (update_pos_steps r n (p, v)).1.x - r ≥ MIN_MAX_TABLE 0 - |v.x|
      ∧ (update_pos_steps r n (p, v)).1.y + r ≤ MIN_MAX_TABLE 3 + |v.y|
      ∧ (update_pos_steps r n (p, v)).1.y - r ≥ MIN_MAX_TABLE 2 - |v.y|)
    ∧ (∀ (R : RandCalls) (k : Fin 6),
        0 ≤ (main.init R : Bodies ℝ).rads k
        ∧ MIN_MAX_TABLE 0
            ≤ ((main.init R : Bodies ℝ).poses k).x - (main.init R : Bodies ℝ).rads k
        ∧ ((main.init R : Bodies ℝ).poses k).x + (main.init R : Bodies ℝ).rads k
            ≤ MIN_MAX_TABLE 1
        ∧ MIN_MAX_TABLE 2
            ≤ ((main.init R : Bodies ℝ).poses k).y - (main.init R : Bodies ℝ).rads k
        ∧ ((main.init R : Bodies ℝ).poses k).y + (main.init R : Bodies ℝ).rads k
            ≤ MIN_MAX_TABLE 3
        ∧ 2 * (main.init R : Bodies ℝ).rads k + |((main.init R : Bodies ℝ).vels k).x|
            ≤ MIN_MAX_TABLE 1 - MIN_MAX_TABLE 0
        ∧ 2 * (main.init R : Bodies ℝ).rads k + |((main.init R : Bodies ℝ).vels k).y|
            ≤ MIN_MAX_TABLE 3 - MIN_MAX_TABLE 2) := by
  obtain ⟨⟨ax1, ax2, ax3, ax4, -, -⟩, ⟨ay1, ay2, ay3, ay4, -, -⟩⟩ :=
    update_pos_steps_inv p r v hx0 hx1 hy0 hy1 n
  refine ⟨⟨ax1, ay1⟩, ⟨ax2, ay2⟩, ⟨ax3, ax4, ay3, ay4⟩, ?_⟩
  intro R k
  obtain ⟨⟨px1, px2⟩, ⟨py1, py2⟩⟩ := init_pos_bounds R k
  obtain ⟨⟨vx1, vx2⟩, ⟨vy1, vy2⟩⟩ := init_vel_bounds R k
  obtain ⟨r1, r2⟩ := init_rads_bounds R k
  obtain ⟨t0, t1, t2, t3⟩ := MIN_MAX_TABLE_values
  have hax : |((main.init R : Bodies ℝ).vels k).x| ≤ 50 := abs_le.mpr ⟨vx1, by linarith⟩
  have hay : |((main.init R : Bodies ℝ).vels k).y| ≤ 60 := abs_le.mpr ⟨vy1, by linarith⟩
  rw [t0, t1, t2, t3]
  norm_num at px1 px2 py1 py2
  refine ⟨by linarith, by linarith, by linarith, by linarith, by linarith, ?_, ?_⟩
  · norm_num; linarith
  · norm_num; linarith

/-- Witness for C18: the body of radius 60 at the origin with velocity
(50, -60), after 3 steps. -/
theorem update_pos_orbit_bounded_witness :
    ((0 : ℝ) ≤ 60 ∧ (MIN_MAX_TABLE 0 : ℝ) ≤ 0 - 60 ∧ (0 : ℝ) + 60 ≤ MIN_MAX_TABLE 1
      ∧ 2 * (60 : ℝ) + |(50 : ℝ)| ≤ MIN_MAX_TABLE 1 - MIN_MAX_TABLE 0)
    ∧ |(update_pos_steps (60 : ℝ) 3 (⟨0, 0⟩, ⟨50, -60⟩)).2.x| = |(50 : ℝ)|
    ∧ (update_pos_steps (60 : ℝ) 3 (⟨0, 0⟩, ⟨50, -60⟩)).1.x + 60
        ≤ MIN_MAX_TABLE 1 + |(50 : ℝ)| := by
  have a50 : |(50 : ℝ)| = 50 := abs_of_pos (by norm_num)
  have a60 : |(-60 : ℝ)| = 60 := by rw [abs_neg]; exact abs_of_pos (by norm_num)
  obtain ⟨t0, t1, t2, t3⟩ := MIN_MAX_TABLE_values
  have hw := update_pos_orbit_bounded ⟨0, 0⟩ 60 ⟨50, -60⟩ 3 (by norm_num)
    (by rw [t0]; norm_num) (by rw [t1]; norm_num) (by rw [t2]; norm_num)
    (by rw [t3]; norm_num) (by rw [t0, t1, a50]; norm_num) (by rw [t2, t3, a60]; norm_num)
  refine ⟨⟨by norm_num, by rw [t0]; norm_num, by rw [t1]; norm_num,
    by rw [t0, t1, a50]; norm_num⟩, hw.1.1, hw.2.2.1.1⟩

end Metaballs
